import Mathlib

set_option maxHeartbeats 2000000

namespace Cspaced

/-!
Shallow embedding of the tree-sitter grammar of the cspaced language
(src/grammar.js).  Each grammar rule becomes a predicate on token lists:
`rule ts` holds exactly when the rule derives the token string `ts`.
Terminals are modelled by the `Tok` type; the three external tokens of the
indentation scanner (`_indent`, `_dedent`, `_newline`) are the constructors
`Tok.indent`, `Tok.dedent`, `Tok.newline`.  A second, first-order
representation of the grammar source (`grammarRules` and friends) is used
for claims about the shape of the grammar itself (which rule names are
defined, which tokens are external, what the extras are).
-/

/-- Tokens of the cspaced language as seen by the grammar: literal keywords
and punctuation, identifier / number / string / character tokens, the
free-text token used by the preprocessor patterns, and the three external
tokens produced by the indentation scanner. -/
inductive Tok where
  | lit : String → Tok
  | ident : String → Tok
  | num : String → Tok
  | str : String → Tok
  | chr : String → Tok
  | raw : String → Tok
  | indent : Tok
  | dedent : Tok
  | newline : Tok
  deriving DecidableEq, Repr

/-- First character of the identifier pattern `[a-zA-Z_][a-zA-Z0-9_]*`. -/
def isIdentStart (c : Char) : Bool :=
  ('a' ≤ c && c ≤ 'z') || ('A' ≤ c && c ≤ 'Z') || c = '_'

/-- Later characters of the identifier pattern. -/
def isIdentChar (c : Char) : Bool :=
  isIdentStart c || ('0' ≤ c && c ≤ '9')

/-- Recognizer for the identifier pattern of grammar.js. -/
def isIdentName (s : String) : Bool :=
  match s.toList with
  | [] => false
  | c :: cs => isIdentStart c && cs.all isIdentChar

/-- Decimal digit string, the pattern `\d+`. -/
def isDecLit (s : String) : Bool :=
  s.toList ≠ [] && s.toList.all Char.isDigit

/-- Floating point pattern `\d+\.\d+`: one or more digits, a dot, one or
more digits. -/
def isFloatLit (s : String) : Bool :=
  let cs := s.toList
  let ds := cs.takeWhile Char.isDigit
  match cs.dropWhile Char.isDigit with
  | '.' :: frac => ds ≠ [] && frac ≠ [] && frac.all Char.isDigit
  | _ => false

/-- Hexadecimal digit. -/
def isHexChar (c : Char) : Bool :=
  c.isDigit || ('a' ≤ c && c ≤ 'f') || ('A' ≤ c && c ≤ 'F')

/-- Hexadecimal pattern `0[xX][0-9a-fA-F]+`. -/
def isHexLit (s : String) : Bool :=
  match s.toList with
  | '0' :: x :: rest => (x = 'x' || x = 'X') && rest ≠ [] && rest.all isHexChar
  | _ => false

/-- Binary pattern `0[bB][01]+`. -/
def isBinLit (s : String) : Bool :=
  match s.toList with
  | '0' :: b :: rest => (b = 'b' || b = 'B') && rest ≠ [] && rest.all (fun c => c = '0' || c = '1')
  | _ => false

/-- Octal pattern `0[0-7]+`. -/
def isOctLit (s : String) : Bool :=
  match s.toList with
  | '0' :: rest => rest ≠ [] && rest.all (fun c => '0' ≤ c && c ≤ '7')
  | _ => false

/-- Recognizer for the number_literal choice of grammar.js. -/
def isNumberLit (s : String) : Bool :=
  isFloatLit s || isDecLit s || isHexLit s || isBinLit s || isOctLit s

/-- Body-and-closing-quote recognizer for `"([^"\x5c]|\x5c.)*"`, applied to
the characters after the opening quote. -/
def strTail : List Char → Bool
  | ['"'] => true
  | '\\' :: _ :: rest => strTail rest
  | c :: rest => c ≠ '"' && c ≠ '\\' && strTail rest
  | [] => false

/-- Recognizer for the string_literal pattern of grammar.js. -/
def isStringLit (s : String) : Bool :=
  match s.toList with
  | '"' :: rest => strTail rest
  | _ => false

/-- Body-and-closing-quote recognizer for the character literal pattern,
applied to the characters after the opening quote. -/
def chrTail : List Char → Bool
  | ['\''] => true
  | '\\' :: _ :: rest => chrTail rest
  | c :: rest => c ≠ '\'' && c ≠ '\\' && chrTail rest
  | [] => false

/-- Recognizer for the character_literal pattern of grammar.js. -/
def isCharLit (s : String) : Bool :=
  match s.toList with
  | '\'' :: rest => chrTail rest
  | _ => false

/-- Recognizer for the free-text pattern `.+` used by preprocessor rules:
one or more characters with no line break. -/
def isRawText (s : String) : Bool :=
  s.toList ≠ [] && s.toList.all (fun c => c ≠ '\n' && c ≠ '\r')

/-- Rule identifier of grammar.js. -/
def identifier (ts : List Tok) : Prop :=
  ∃ s, ts = [Tok.ident s] ∧ isIdentName s = true

/-- Rule number_literal. -/
def number_literal (ts : List Tok) : Prop :=
  ∃ s, ts = [Tok.num s] ∧ isNumberLit s = true

/-- Rule string_literal. -/
def string_literal (ts : List Tok) : Prop :=
  ∃ s, ts = [Tok.str s] ∧ isStringLit s = true

/-- Rule character_literal. -/
def character_literal (ts : List Tok) : Prop :=
  ∃ s, ts = [Tok.chr s] ∧ isCharLit s = true

/-- Rule storage_class_specifier. -/
def storage_class_specifier (ts : List Tok) : Prop :=
  ∃ s, ts = [Tok.lit s] ∧ s ∈ ["auto", "register", "static", "extern", "typedef", "_Thread_local"]

/-- Rule type_qualifier. -/
def type_qualifier (ts : List Tok) : Prop :=
  ∃ s, ts = [Tok.lit s] ∧ s ∈ ["const", "restrict", "volatile", "_Atomic"]

/-- Rule function_specifier. -/
def function_specifier (ts : List Tok) : Prop :=
  ∃ s, ts = [Tok.lit s] ∧ s ∈ ["inline", "_Noreturn"]

/-- Rule assignment_operator. -/
def assignment_operator (ts : List Tok) : Prop :=
  ∃ s, ts = [Tok.lit s] ∧
    s ∈ ["=", "*=", "/=", "%=", "+=", "-=", "<<=", ">>=", "&=", "^=", "|="]

/-- Rule unary_operator. -/
def unary_operator (ts : List Tok) : Prop :=
  ∃ s, ts = [Tok.lit s] ∧ s ∈ ["&", "*", "+", "-", "~", "!"]

/-- Rule typedef_name: any identifier (grammar.js line 203); the grammar has
no symbol table, so every identifier is a possible typedef name. -/
def typedef_name (ts : List Tok) : Prop :=
  identifier ts

/-- Rule enumeration_constant. -/
def enumeration_constant (ts : List Tok) : Prop :=
  identifier ts

/-- Rule empty_statement. -/
def empty_statement (ts : List Tok) : Prop :=
  ts = [Tok.lit ";"]

/-- Rule _line_continuation, the pattern backslash followed by a line
break. -/
def _line_continuation (ts : List Tok) : Prop :=
  ∃ s, ts = [Tok.raw s] ∧ (s = "\\\r" ∨ s = "\\\n")

/-- Rule function_definition: referenced by external_declaration but never
defined in grammar.js, so it has no production and derives nothing. -/
inductive function_definition : List Tok → Prop

/-- Rule union_specifier: referenced by type_specifier but never defined in
grammar.js, so it has no production and derives nothing. -/
inductive union_specifier : List Tok → Prop

/-- Rule _parenthesized_parameter_list: referenced by _preproc_define_value
but never defined in grammar.js, so it has no production and derives
nothing. -/
inductive _parenthesized_parameter_list : List Tok → Prop

/-- Rule preproc_include. -/
def preproc_include (ts : List Tok) : Prop :=
  ∃ s, isRawText s = true ∧
    (ts = [Tok.lit "#include", Tok.lit "<", Tok.raw s, Tok.lit ">"] ∨
     ts = [Tok.lit "#include", Tok.lit "\"", Tok.raw s, Tok.lit "\""])

/-- Rule _preproc_define_value. -/
def _preproc_define_value (ts : List Tok) : Prop :=
  (∃ s, ts = [Tok.raw s] ∧ isRawText s = true) ∨ _parenthesized_parameter_list ts

/-- Rule preproc_define. -/
def preproc_define (ts : List Tok) : Prop :=
  ∃ a b, ts = Tok.lit "#define" :: a ++ b ∧ identifier a ∧
    (b = [] ∨ _preproc_define_value b)

/-- Rule _preproc_expression. -/
def _preproc_expression (ts : List Tok) : Prop :=
  ∃ s, ts = [Tok.raw s] ∧ isRawText s = true

/-- Rule preproc_if. -/
def preproc_if (ts : List Tok) : Prop :=
  ∃ b, ts = Tok.lit "#if" :: b ∧ _preproc_expression b

/-- Rule preproc_ifdef. -/
def preproc_ifdef (ts : List Tok) : Prop :=
  ∃ a, ts = Tok.lit "#ifdef" :: a ∧ identifier a

/-- Rule preproc_else. -/
def preproc_else (ts : List Tok) : Prop :=
  ts = [Tok.lit "#else"]

/-- Rule preproc_endif. -/
def preproc_endif (ts : List Tok) : Prop :=
  ts = [Tok.lit "#endif"]

/-- Rule preproc_undef. -/
def preproc_undef (ts : List Tok) : Prop :=
  ∃ a, ts = Tok.lit "#undef" :: a ∧ identifier a

/-- Rule preproc_pragma. -/
def preproc_pragma (ts : List Tok) : Prop :=
  ∃ s, ts = [Tok.lit "#pragma", Tok.raw s] ∧ isRawText s = true

/-- Rule preproc_line. -/
def preproc_line (ts : List Tok) : Prop :=
  ∃ s, ts = [Tok.lit "#line", Tok.raw s] ∧ isRawText s = true

/-- Rule preproc_error. -/
def preproc_error (ts : List Tok) : Prop :=
  ∃ s, ts = [Tok.lit "#error", Tok.raw s] ∧ isRawText s = true

/-- Rule preproc_directive. -/
def preproc_directive (ts : List Tok) : Prop :=
  preproc_include ts ∨ preproc_define ts ∨ preproc_if ts ∨ preproc_ifdef ts ∨
  preproc_else ts ∨ preproc_endif ts ∨ preproc_undef ts ∨ preproc_pragma ts ∨
  preproc_line ts ∨ preproc_error ts

/-- Rule type_qualifier_list (`repeat1($.type_qualifier)`). -/
inductive type_qualifier_list : List Tok → Prop
  | single : type_qualifier ts → type_qualifier_list ts
  | cons : type_qualifier a → type_qualifier_list b → type_qualifier_list (a ++ b)

/-- Rule pointer (`'*'` then an optional type_qualifier_list). -/
inductive pointer : List Tok → Prop
  | bare : pointer [Tok.lit "*"]
  | quals : type_qualifier_list q → pointer (Tok.lit "*" :: q)

/-- Rule identifier_list (identifier, then comma separated identifiers). -/
inductive identifier_list : List Tok → Prop
  | single : identifier ts → identifier_list ts
  | cons : identifier a → identifier_list b → identifier_list (a ++ Tok.lit "," :: b)

/-- Optional trailing `';'`. -/
inductive semi_opt : List Tok → Prop
  | none : semi_opt []
  | some : semi_opt [Tok.lit ";"]

/-- Optional identifier_list (inside a function declarator). -/
inductive ids_opt : List Tok → Prop
  | none : ids_opt []
  | some : identifier_list ts → ids_opt ts

/-- Names of the mutually recursive nonterminals of grammar.js (the rules
that take part in the recursion web between declarations, types,
initializers, expressions and statements), plus the auxiliary list and
optional forms their `seq` / `repeat` / `optional` combinators introduce. -/
inductive NT where
  | declaration | init_opt | declaration_specifiers | decl_spec_item
  | type_specifier | struct_specifier | struct_declaration_list | struct_declaration
  | specifier_qualifier_list | struct_declarator_list | struct_declarator
  | enum_specifier | enumerator_list | enum_tail | enumerator
  | alignment_specifier | declarator | const_opt | parameter_list
  | parameter_declaration | type_name | abstract_declarator
  | direct_abstract_declarator | dad_opt | params_opt
  | init_declarator_list | init_declarator | initializer | initializer_list
  | init_list_tail | compound_initializer
  | statement | labeled_statement | compound_statement | block_items
  | expression_statement | selection_statement | switch_items
  | iteration_statement | for_init_opt | expr_opt | jump_statement | jump_body
  | expression | expr_tail | assignment_expression | conditional_expression
  | logical_or_expression | lor_tail | logical_and_expression | land_tail
  | inclusive_or_expression | ior_tail | exclusive_or_expression | xor_tail
  | and_expression | and_tail | equality_expression | eq_tail
  | relational_expression | rel_tail | shift_expression | shift_tail
  | additive_expression | add_tail | multiplicative_expression | mul_tail
  | cast_expression | unary_expression | postfix_expression | pf_tail
  | primary_expression | parenthesized_expression | argument_expression_list
  | arg_tail | constant_expression | compound_literal
  deriving DecidableEq, Repr

/-- Derivation relation of the recursive rules of grammar.js:
`Der n ts` holds when nonterminal `n` derives the token string `ts`.
Each constructor is one alternative of one grammar rule (or one step of a
`repeat` / one case of an `optional`). -/
inductive Der : NT → List Tok → Prop
  | declaration_mk : Der .declaration_specifiers a → Der .init_opt b → semi_opt c →
      Der .declaration (a ++ b ++ c)
  | init_opt_none : Der .init_opt []
  | init_opt_some : Der .init_declarator_list ts → Der .init_opt ts
  | decl_specs_single : Der .decl_spec_item ts → Der .declaration_specifiers ts
  | decl_specs_cons : Der .decl_spec_item a → Der .declaration_specifiers b →
      Der .declaration_specifiers (a ++ b)
  | spec_storage : storage_class_specifier ts → Der .decl_spec_item ts
  | spec_qualifier : type_qualifier ts → Der .decl_spec_item ts
  | spec_func : function_specifier ts → Der .decl_spec_item ts
  | spec_type : Der .type_specifier ts → Der .decl_spec_item ts
  | spec_alignment : Der .alignment_specifier ts → Der .decl_spec_item ts
  | ts_basic : s ∈ ["void", "char", "short", "int", "long", "float", "double",
      "signed", "unsigned", "_Bool", "_Complex", "_Imaginary"] →
      Der .type_specifier [Tok.lit s]
  | ts_struct : Der .struct_specifier ts → Der .type_specifier ts
  | ts_union : union_specifier ts → Der .type_specifier ts
  | ts_enum : Der .enum_specifier ts → Der .type_specifier ts
  | ts_typedefname : typedef_name ts → Der .type_specifier ts
  | struct_body : identifier i → Der .struct_declaration_list b →
      Der .struct_specifier (Tok.lit "struct" :: i ++ Tok.lit "\x7b" :: b ++ [Tok.lit "\x7d"])
  | struct_name : identifier i → Der .struct_specifier (Tok.lit "struct" :: i)
  | sdl_single : Der .struct_declaration ts → Der .struct_declaration_list ts
  | sdl_cons : Der .struct_declaration a → Der .struct_declaration_list b →
      Der .struct_declaration_list (a ++ b)
  | struct_decl_mk : Der .specifier_qualifier_list a → Der .struct_declarator_list b →
      Der .struct_declaration (a ++ b ++ [Tok.lit ";"])
  | sql_single_q : type_qualifier ts → Der .specifier_qualifier_list ts
  | sql_single_t : Der .type_specifier ts → Der .specifier_qualifier_list ts
  | sql_cons_q : type_qualifier a → Der .specifier_qualifier_list b →
      Der .specifier_qualifier_list (a ++ b)
  | sql_cons_t : Der .type_specifier a → Der .specifier_qualifier_list b →
      Der .specifier_qualifier_list (a ++ b)
  | sdrl_single : Der .struct_declarator ts → Der .struct_declarator_list ts
  | sdrl_cons : Der .struct_declarator a → Der .struct_declarator_list b →
      Der .struct_declarator_list (a ++ Tok.lit "," :: b)
  | sdr_plain : Der .declarator ts → Der .struct_declarator ts
  | sdr_bits : Der .declarator d → Der .constant_expression c →
      Der .struct_declarator (d ++ Tok.lit ":" :: c)
  | sdr_bits_anon : Der .constant_expression c → Der .struct_declarator (Tok.lit ":" :: c)
  | enum_body : identifier i → Der .enumerator_list b →
      Der .enum_specifier (Tok.lit "enum" :: i ++ Tok.lit "\x7b" :: b ++ [Tok.lit "\x7d"])
  | enum_name : identifier i → Der .enum_specifier (Tok.lit "enum" :: i)
  | enum_bare : Der .enum_specifier [Tok.lit "enum"]
  | enum_list_mk : Der .enumerator a → Der .enum_tail b → Der .enumerator_list (a ++ b)
  | enum_list_comma : Der .enumerator a → Der .enum_tail b →
      Der .enumerator_list (a ++ b ++ [Tok.lit ","])
  | enum_tail_nil : Der .enum_tail []
  | enum_tail_cons : Der .enumerator a → Der .enum_tail b →
      Der .enum_tail (Tok.lit "," :: a ++ b)
  | enumerator_plain : enumeration_constant ts → Der .enumerator ts
  | enumerator_value : enumeration_constant a → Der .constant_expression c →
      Der .enumerator (a ++ Tok.lit "=" :: c)
  | alignas_type : Der .type_name t →
      Der .alignment_specifier (Tok.lit "_Alignas" :: Tok.lit "(" :: t ++ [Tok.lit ")"])
  | alignas_const : Der .constant_expression c →
      Der .alignment_specifier (Tok.lit "_Alignas" :: Tok.lit "(" :: c ++ [Tok.lit ")"])
  | declarator_id : identifier ts → Der .declarator ts
  | declarator_paren : Der .declarator d → Der .declarator (Tok.lit "(" :: d ++ [Tok.lit ")"])
  | declarator_ptr : pointer p → Der .declarator p
  | declarator_ptr_decl : pointer p → Der .declarator d → Der .declarator (p ++ d)
  | declarator_array : Der .declarator d → Der .const_opt c →
      Der .declarator (d ++ Tok.lit "[" :: c ++ [Tok.lit "]"])
  | declarator_fn_params : Der .declarator d → Der .parameter_list ps →
      Der .declarator (d ++ Tok.lit "(" :: ps ++ [Tok.lit ")"])
  | declarator_fn_ids : Der .declarator d → ids_opt ids →
      Der .declarator (d ++ Tok.lit "(" :: ids ++ [Tok.lit ")"])
  | const_opt_none : Der .const_opt []
  | const_opt_some : Der .constant_expression ts → Der .const_opt ts
  | plist_single : Der .parameter_declaration ts → Der .parameter_list ts
  | plist_cons : Der .parameter_declaration a → Der .parameter_list b →
      Der .parameter_list (a ++ Tok.lit "," :: b)
  | pdecl_declarator : Der .declaration_specifiers a → Der .declarator d →
      Der .parameter_declaration (a ++ d)
  | pdecl_abstract : Der .declaration_specifiers a → Der .abstract_declarator d →
      Der .parameter_declaration (a ++ d)
  | pdecl_specs : Der .declaration_specifiers a → Der .parameter_declaration a
  | type_name_specs : Der .specifier_qualifier_list a → Der .type_name a
  | type_name_abs : Der .specifier_qualifier_list a → Der .abstract_declarator d →
      Der .type_name (a ++ d)
  | abs_ptr : pointer p → Der .abstract_declarator p
  | abs_ptr_direct : pointer p → Der .direct_abstract_declarator d →
      Der .abstract_declarator (p ++ d)
  | abs_direct : Der .direct_abstract_declarator d → Der .abstract_declarator d
  | dad_paren : Der .abstract_declarator d →
      Der .direct_abstract_declarator (Tok.lit "(" :: d ++ [Tok.lit ")"])
  | dad_array : Der .dad_opt d → Der .const_opt c →
      Der .direct_abstract_declarator (d ++ Tok.lit "[" :: c ++ [Tok.lit "]"])
  | dad_call : Der .dad_opt d → Der .params_opt p →
      Der .direct_abstract_declarator (d ++ Tok.lit "(" :: p ++ [Tok.lit ")"])
  | dad_opt_none : Der .dad_opt []
  | dad_opt_some : Der .direct_abstract_declarator ts → Der .dad_opt ts
  | params_opt_none : Der .params_opt []
  | params_opt_some : Der .parameter_list ts → Der .params_opt ts
  | idl_single : Der .init_declarator ts → Der .init_declarator_list ts
  | idl_cons : Der .init_declarator a → Der .init_declarator_list b →
      Der .init_declarator_list (a ++ Tok.lit "," :: b)
  | init_decl_plain : Der .declarator ts → Der .init_declarator ts
  | init_decl_init : Der .declarator d → Der .initializer i →
      Der .init_declarator (d ++ Tok.lit "=" :: i)
  | initializer_assign : Der .assignment_expression ts → Der .initializer ts
  | initializer_list_mk : Der .initializer_list ts → Der .initializer ts
  | initializer_compound : Der .compound_initializer ts → Der .initializer ts
  | il_mk : Der .initializer a → Der .init_list_tail b → Der .initializer_list (a ++ b)
  | il_comma : Der .initializer a → Der .init_list_tail b →
      Der .initializer_list (a ++ b ++ [Tok.lit ","])
  | ilt_nil : Der .init_list_tail []
  | ilt_cons : Der .initializer a → Der .init_list_tail b →
      Der .init_list_tail (Tok.lit "," :: a ++ b)
  | ci_empty : Der .compound_initializer [Tok.lit "\x7b", Tok.lit "\x7d"]
  | ci_mk : Der .initializer_list l →
      Der .compound_initializer (Tok.lit "\x7b" :: l ++ [Tok.lit "\x7d"])
  | stmt_labeled : Der .labeled_statement ts → Der .statement ts
  | stmt_compound : Der .compound_statement ts → Der .statement ts
  | stmt_expr : Der .expression_statement ts → Der .statement ts
  | stmt_selection : Der .selection_statement ts → Der .statement ts
  | stmt_iteration : Der .iteration_statement ts → Der .statement ts
  | stmt_jump : Der .jump_statement ts → Der .statement ts
  | stmt_empty : empty_statement ts → Der .statement ts
  | label_id : identifier i → Der .statement s → Der .labeled_statement (i ++ Tok.lit ":" :: s)
  | label_case : Der .constant_expression c → Der .statement s →
      Der .labeled_statement (Tok.lit "case" :: c ++ Tok.lit ":" :: s)
  | label_default : Der .statement s →
      Der .labeled_statement (Tok.lit "default" :: Tok.lit ":" :: s)
  | compound_mk : Der .block_items body →
      Der .compound_statement (Tok.lit ":" :: Tok.indent :: body ++ [Tok.dedent])
  | items_nil : Der .block_items []
  | items_stmt : Der .statement s → Der .block_items b → Der .block_items (s ++ b)
  | items_decl : Der .declaration s → Der .block_items b → Der .block_items (s ++ b)
  | exprstmt_mk : Der .expression e → Der .expression_statement e
  | exprstmt_semi : Der .expression e → Der .expression_statement (e ++ [Tok.lit ";"])
  | if_mk : Der .parenthesized_expression p → Der .compound_statement c →
      Der .selection_statement (Tok.lit "if" :: p ++ c)
  | if_else : Der .parenthesized_expression p → Der .compound_statement c →
      Der .compound_statement e →
      Der .selection_statement (Tok.lit "if" :: p ++ c ++ Tok.lit "else" :: e)
  | switch_mk : Der .parenthesized_expression p → Der .switch_items ls →
      Der .selection_statement (Tok.lit "switch" :: p ++ Tok.lit "\x7b" :: ls ++ [Tok.lit "\x7d"])
  | switch_nil : Der .switch_items []
  | switch_cons : Der .labeled_statement a → Der .switch_items b →
      Der .switch_items (a ++ b)
  | while_mk : Der .parenthesized_expression p → Der .compound_statement c →
      Der .iteration_statement (Tok.lit "while" :: p ++ c)
  | do_mk : Der .compound_statement c → Der .parenthesized_expression p →
      Der .iteration_statement (Tok.lit "do" :: c ++ Tok.lit "while" :: p ++ [Tok.lit ";"])
  | for_mk : Der .for_init_opt i → Der .expr_opt cnd → Der .expr_opt step →
      Der .compound_statement c →
      Der .iteration_statement (Tok.lit "for" :: Tok.lit "(" :: i ++ Tok.lit ";" :: cnd ++
        Tok.lit ";" :: step ++ Tok.lit ")" :: c)
  | for_init_none : Der .for_init_opt []
  | for_init_decl : Der .declaration d → Der .for_init_opt d
  | for_init_expr : Der .expression e → Der .for_init_opt e
  | expr_opt_none : Der .expr_opt []
  | expr_opt_some : Der .expression e → Der .expr_opt e
  | jump_mk : Der .jump_body b → Der .jump_statement b
  | jump_semi : Der .jump_body b → Der .jump_statement (b ++ [Tok.lit ";"])
  | jump_goto : identifier i → Der .jump_body (Tok.lit "goto" :: i)
  | jump_continue : Der .jump_body [Tok.lit "continue"]
  | jump_break : Der .jump_body [Tok.lit "break"]
  | jump_return : Der .jump_body [Tok.lit "return"]
  | jump_return_expr : Der .expression e → Der .jump_body (Tok.lit "return" :: e)
  | expr_mk : Der .assignment_expression a → Der .expr_tail t → Der .expression (a ++ t)
  | expr_tail_nil : Der .expr_tail []
  | expr_tail_cons : Der .assignment_expression a → Der .expr_tail t →
      Der .expr_tail (Tok.lit "," :: a ++ t)
  | assign_cond : Der .conditional_expression ts → Der .assignment_expression ts
  | assign_mk : Der .unary_expression u → assignment_operator o →
      Der .assignment_expression r → Der .assignment_expression (u ++ o ++ r)
  | cond_base : Der .logical_or_expression ts → Der .conditional_expression ts
  | cond_ternary : Der .logical_or_expression c → Der .expression t →
      Der .conditional_expression e →
      Der .conditional_expression (c ++ Tok.lit "?" :: t ++ Tok.lit ":" :: e)
  | lor_mk : Der .logical_and_expression a → Der .lor_tail t →
      Der .logical_or_expression (a ++ t)
  | lor_tail_nil : Der .lor_tail []
  | lor_tail_cons : Der .logical_and_expression a → Der .lor_tail t →
      Der .lor_tail (Tok.lit "||" :: a ++ t)
  | land_mk : Der .inclusive_or_expression a → Der .land_tail t →
      Der .logical_and_expression (a ++ t)
  | land_tail_nil : Der .land_tail []
  | land_tail_cons : Der .inclusive_or_expression a → Der .land_tail t →
      Der .land_tail (Tok.lit "&&" :: a ++ t)
  | ior_mk : Der .exclusive_or_expression a → Der .ior_tail t →
      Der .inclusive_or_expression (a ++ t)
  | ior_tail_nil : Der .ior_tail []
  | ior_tail_cons : Der .exclusive_or_expression a → Der .ior_tail t →
      Der .ior_tail (Tok.lit "|" :: a ++ t)
  | xor_mk : Der .and_expression a → Der .xor_tail t →
      Der .exclusive_or_expression (a ++ t)
  | xor_tail_nil : Der .xor_tail []
  | xor_tail_cons : Der .and_expression a → Der .xor_tail t →
      Der .xor_tail (Tok.lit "^" :: a ++ t)
  | and_mk : Der .equality_expression a → Der .and_tail t → Der .and_expression (a ++ t)
  | and_tail_nil : Der .and_tail []
  | and_tail_cons : Der .equality_expression a → Der .and_tail t →
      Der .and_tail (Tok.lit "&" :: a ++ t)
  | eq_mk : Der .relational_expression a → Der .eq_tail t → Der .equality_expression (a ++ t)
  | eq_tail_nil : Der .eq_tail []
  | eq_tail_cons : o ∈ ["==", "!="] → Der .relational_expression a → Der .eq_tail t →
      Der .eq_tail (Tok.lit o :: a ++ t)
  | rel_mk : Der .shift_expression a → Der .rel_tail t → Der .relational_expression (a ++ t)
  | rel_tail_nil : Der .rel_tail []
  | rel_tail_cons : o ∈ ["<", "<=", ">", ">="] → Der .shift_expression a → Der .rel_tail t →
      Der .rel_tail (Tok.lit o :: a ++ t)
  | shift_mk : Der .additive_expression a → Der .shift_tail t → Der .shift_expression (a ++ t)
  | shift_tail_nil : Der .shift_tail []
  | shift_tail_cons : o ∈ ["<<", ">>"] → Der .additive_expression a → Der .shift_tail t →
      Der .shift_tail (Tok.lit o :: a ++ t)
  | add_mk : Der .multiplicative_expression a → Der .add_tail t →
      Der .additive_expression (a ++ t)
  | add_tail_nil : Der .add_tail []
  | add_tail_cons : o ∈ ["+", "-"] → Der .multiplicative_expression a → Der .add_tail t →
      Der .add_tail (Tok.lit o :: a ++ t)
  | mul_mk : Der .cast_expression a → Der .mul_tail t →
      Der .multiplicative_expression (a ++ t)
  | mul_tail_nil : Der .mul_tail []
  | mul_tail_cons : o ∈ ["*", "/", "%"] → Der .cast_expression a → Der .mul_tail t →
      Der .mul_tail (Tok.lit o :: a ++ t)
  | cast_mk : Der .type_name t → Der .cast_expression c →
      Der .cast_expression (Tok.lit "(" :: t ++ Tok.lit ")" :: c)
  | cast_unary : Der .unary_expression ts → Der .cast_expression ts
  | unary_postfix : Der .postfix_expression ts → Der .unary_expression ts
  | unary_incr : o ∈ ["++", "--"] → Der .unary_expression u →
      Der .unary_expression (Tok.lit o :: u)
  | unary_op : unary_operator o → Der .cast_expression c → Der .unary_expression (o ++ c)
  | unary_sizeof : Der .unary_expression u → Der .unary_expression (Tok.lit "sizeof" :: u)
  | unary_sizeof_type : Der .type_name t →
      Der .unary_expression (Tok.lit "sizeof" :: Tok.lit "(" :: t ++ [Tok.lit ")"])
  | unary_alignof : Der .type_name t →
      Der .unary_expression (Tok.lit "_Alignof" :: Tok.lit "(" :: t ++ [Tok.lit ")"])
  | pf_mk : Der .primary_expression p → Der .pf_tail t → Der .postfix_expression (p ++ t)
  | pf_nil : Der .pf_tail []
  | pf_index : Der .expression e → Der .pf_tail t →
      Der .pf_tail (Tok.lit "[" :: e ++ Tok.lit "]" :: t)
  | pf_call : Der .argument_expression_list a → Der .pf_tail t →
      Der .pf_tail (Tok.lit "(" :: a ++ Tok.lit ")" :: t)
  | pf_call_empty : Der .pf_tail t → Der .pf_tail (Tok.lit "(" :: Tok.lit ")" :: t)
  | pf_member : identifier i → Der .pf_tail t → Der .pf_tail (Tok.lit "." :: i ++ t)
  | pf_arrow : identifier i → Der .pf_tail t → Der .pf_tail (Tok.lit "->" :: i ++ t)
  | pf_inc : Der .pf_tail t → Der .pf_tail (Tok.lit "++" :: t)
  | pf_dec : Der .pf_tail t → Der .pf_tail (Tok.lit "--" :: t)
  | primary_id : identifier ts → Der .primary_expression ts
  | primary_num : number_literal ts → Der .primary_expression ts
  | primary_str : string_literal ts → Der .primary_expression ts
  | primary_chr : character_literal ts → Der .primary_expression ts
  | primary_paren : Der .parenthesized_expression ts → Der .primary_expression ts
  | primary_compound : Der .compound_literal ts → Der .primary_expression ts
  | paren_mk : Der .expression e →
      Der .parenthesized_expression (Tok.lit "(" :: e ++ [Tok.lit ")"])
  | args_mk : Der .assignment_expression a → Der .arg_tail t →
      Der .argument_expression_list (a ++ t)
  | arg_tail_nil : Der .arg_tail []
  | arg_tail_cons : Der .assignment_expression a → Der .arg_tail t →
      Der .arg_tail (Tok.lit "," :: a ++ t)
  | const_expr_mk : Der .conditional_expression ts → Der .constant_expression ts
  | compound_literal_mk : Der .type_name t → Der .compound_initializer c →
      Der .compound_literal (Tok.lit "(" :: t ++ Tok.lit ")" :: c)

/-- Rule declaration (grammar.js lines 116-120). -/
abbrev declaration (ts : List Tok) : Prop := Der .declaration ts

/-- Rule declaration_specifiers. -/
abbrev declaration_specifiers (ts : List Tok) : Prop := Der .declaration_specifiers ts

/-- Rule type_specifier. -/
abbrev type_specifier (ts : List Tok) : Prop := Der .type_specifier ts

/-- Rule struct_specifier. -/
abbrev struct_specifier (ts : List Tok) : Prop := Der .struct_specifier ts

/-- Rule enum_specifier. -/
abbrev enum_specifier (ts : List Tok) : Prop := Der .enum_specifier ts

/-- Rule alignment_specifier. -/
abbrev alignment_specifier (ts : List Tok) : Prop := Der .alignment_specifier ts

/-- Rule declarator. -/
abbrev declarator (ts : List Tok) : Prop := Der .declarator ts

/-- Rule parameter_list. -/
abbrev parameter_list (ts : List Tok) : Prop := Der .parameter_list ts

/-- Rule parameter_declaration. -/
abbrev parameter_declaration (ts : List Tok) : Prop := Der .parameter_declaration ts

/-- Rule type_name. -/
abbrev type_name (ts : List Tok) : Prop := Der .type_name ts

/-- Rule abstract_declarator. -/
abbrev abstract_declarator (ts : List Tok) : Prop := Der .abstract_declarator ts

/-- Rule direct_abstract_declarator. -/
abbrev direct_abstract_declarator (ts : List Tok) : Prop :=
  Der .direct_abstract_declarator ts

/-- Rule _init_declarator_list. -/
abbrev _init_declarator_list (ts : List Tok) : Prop := Der .init_declarator_list ts

/-- Rule _init_declarator. -/
abbrev _init_declarator (ts : List Tok) : Prop := Der .init_declarator ts

/-- Rule initializer. -/
abbrev initializer (ts : List Tok) : Prop := Der .initializer ts

/-- Rule initializer_list. -/
abbrev initializer_list (ts : List Tok) : Prop := Der .initializer_list ts

/-- Rule compound_initializer. -/
abbrev compound_initializer (ts : List Tok) : Prop := Der .compound_initializer ts

/-- Rule statement. -/
abbrev statement (ts : List Tok) : Prop := Der .statement ts

/-- Rule labeled_statement. -/
abbrev labeled_statement (ts : List Tok) : Prop := Der .labeled_statement ts

/-- Rule compound_statement. -/
abbrev compound_statement (ts : List Tok) : Prop := Der .compound_statement ts

/-- Rule expression_statement. -/
abbrev expression_statement (ts : List Tok) : Prop := Der .expression_statement ts

/-- Rule selection_statement. -/
abbrev selection_statement (ts : List Tok) : Prop := Der .selection_statement ts

/-- Rule iteration_statement. -/
abbrev iteration_statement (ts : List Tok) : Prop := Der .iteration_statement ts

/-- Rule jump_statement. -/
abbrev jump_statement (ts : List Tok) : Prop := Der .jump_statement ts

/-- Rule expression. -/
abbrev expression (ts : List Tok) : Prop := Der .expression ts

/-- Rule assignment_expression. -/
abbrev assignment_expression (ts : List Tok) : Prop := Der .assignment_expression ts

/-- Rule conditional_expression. -/
abbrev conditional_expression (ts : List Tok) : Prop := Der .conditional_expression ts

/-- Rule logical_or_expression. -/
abbrev logical_or_expression (ts : List Tok) : Prop := Der .logical_or_expression ts

/-- Rule logical_and_expression. -/
abbrev logical_and_expression (ts : List Tok) : Prop := Der .logical_and_expression ts

/-- Rule inclusive_or_expression. -/
abbrev inclusive_or_expression (ts : List Tok) : Prop := Der .inclusive_or_expression ts

/-- Rule exclusive_or_expression. -/
abbrev exclusive_or_expression (ts : List Tok) : Prop := Der .exclusive_or_expression ts

/-- Rule and_expression. -/
abbrev and_expression (ts : List Tok) : Prop := Der .and_expression ts

/-- Rule equality_expression. -/
abbrev equality_expression (ts : List Tok) : Prop := Der .equality_expression ts

/-- Rule relational_expression. -/
abbrev relational_expression (ts : List Tok) : Prop := Der .relational_expression ts

/-- Rule shift_expression. -/
abbrev shift_expression (ts : List Tok) : Prop := Der .shift_expression ts

/-- Rule additive_expression. -/
abbrev additive_expression (ts : List Tok) : Prop := Der .additive_expression ts

/-- Rule multiplicative_expression. -/
abbrev multiplicative_expression (ts : List Tok) : Prop := Der .multiplicative_expression ts

/-- Rule cast_expression. -/
abbrev cast_expression (ts : List Tok) : Prop := Der .cast_expression ts

/-- Rule unary_expression. -/
abbrev unary_expression (ts : List Tok) : Prop := Der .unary_expression ts

/-- Rule postfix_expression. -/
abbrev postfix_expression (ts : List Tok) : Prop := Der .postfix_expression ts

/-- Rule primary_expression. -/
abbrev primary_expression (ts : List Tok) : Prop := Der .primary_expression ts

/-- Rule parenthesized_expression. -/
abbrev parenthesized_expression (ts : List Tok) : Prop := Der .parenthesized_expression ts

/-- Rule argument_expression_list. -/
abbrev argument_expression_list (ts : List Tok) : Prop := Der .argument_expression_list ts

/-- Rule constant_expression. -/
abbrev constant_expression (ts : List Tok) : Prop := Der .constant_expression ts

/-- Rule compound_literal. -/
abbrev compound_literal (ts : List Tok) : Prop := Der .compound_literal ts

/-- The repeated statement-or-declaration items of a compound_statement,
with an explicit count of items.  `block_items_n ts n` holds when `ts`
splits into `n` block items. -/
inductive block_items_n : List Tok → Nat → Prop
  | nil : block_items_n [] 0
  | cons_stmt : Der .statement s → block_items_n b n → block_items_n (s ++ b) (n + 1)
  | cons_decl : Der .declaration s → block_items_n b n → block_items_n (s ++ b) (n + 1)

/-- The repeated labeled statements of a switch body, with an explicit
count of items. -/
inductive labeled_list_n : List Tok → Nat → Prop
  | nil : labeled_list_n [] 0
  | cons : Der .labeled_statement a → labeled_list_n b n → labeled_list_n (a ++ b) (n + 1)

/-- First-order syntax of tree-sitter rule bodies, used to record the text
of grammar.js as data: literal tokens, regex patterns, rule references, and
the seq / choice / repeat / repeat1 / optional combinators (seq and choice
are curried to binary form). -/
inductive GRule where
  | t : String → GRule
  | pat : String → GRule
  | ref : String → GRule
  | gseq : GRule → GRule → GRule
  | gch : GRule → GRule → GRule
  | rep : GRule → GRule
  | rep1 : GRule → GRule
  | opt : GRule → GRule
  deriving DecidableEq, Repr

/-- Left-fold a head rule with further seq members. -/
def seqL (a : GRule) (rs : List GRule) : GRule := rs.foldl GRule.gseq a

/-- Left-fold a head rule with further choice members. -/
def chL (a : GRule) (rs : List GRule) : GRule := rs.foldl GRule.gch a

/-- The helper of grammar.js lines 489-494:
`binary_expression(operator, operand) = seq(operand, repeat(seq(operator, operand)))`. -/
def binary_expression (op operand : GRule) : GRule :=
  .gseq operand (.rep (.gseq op operand))

/-- The rules object of grammar.js, in source order, as (name, body) pairs.
`compound_initializer` is written twice in the source (lines 284-288 and
467) with identical bodies; a JavaScript object keeps one entry. -/
def grammarRules : List (String × GRule) := [
  ("translation_unit", .rep (.gch (.ref "external_declaration") (.ref "empty_statement"))),
  ("external_declaration", chL (.ref "function_definition")
    [.ref "declaration", .ref "preproc_directive", .ref "empty_statement"]),
  ("preproc_directive", chL (.ref "preproc_include")
    [.ref "preproc_define", .ref "preproc_if", .ref "preproc_ifdef", .ref "preproc_else",
     .ref "preproc_endif", .ref "preproc_undef", .ref "preproc_pragma", .ref "preproc_line",
     .ref "preproc_error"]),
  ("preproc_include", .gseq (.t "#include")
    (.gch (seqL (.t "<") [.pat ".+", .t ">"]) (seqL (.t "\"") [.pat ".+", .t "\""]))),
  ("preproc_define", seqL (.t "#define")
    [.ref "identifier", .opt (.ref "_preproc_define_value")]),
  ("_preproc_define_value", .gch (.pat ".+") (.ref "_parenthesized_parameter_list")),
  ("preproc_if", .gseq (.t "#if") (.ref "_preproc_expression")),
  ("preproc_ifdef", .gseq (.t "#ifdef") (.ref "identifier")),
  ("preproc_else", .t "#else"),
  ("preproc_endif", .t "#endif"),
  ("preproc_undef", .gseq (.t "#undef") (.ref "identifier")),
  ("preproc_pragma", .gseq (.t "#pragma") (.pat ".+")),
  ("preproc_line", .gseq (.t "#line") (.pat ".+")),
  ("preproc_error", .gseq (.t "#error") (.pat ".+")),
  ("_preproc_expression", .pat ".+"),
  ("declaration", seqL (.ref "declaration_specifiers")
    [.opt (.ref "_init_declarator_list"), .opt (.t ";")]),
  ("declaration_specifiers", .rep1 (chL (.ref "storage_class_specifier")
    [.ref "type_qualifier", .ref "function_specifier", .ref "type_specifier",
     .ref "alignment_specifier"])),
  ("storage_class_specifier", chL (.t "auto")
    [.t "register", .t "static", .t "extern", .t "typedef", .t "_Thread_local"]),
  ("type_qualifier", chL (.t "const") [.t "restrict", .t "volatile", .t "_Atomic"]),
  ("function_specifier", .gch (.t "inline") (.t "_Noreturn")),
  ("type_specifier", chL (.t "void")
    [.t "char", .t "short", .t "int", .t "long", .t "float", .t "double",
     .t "signed", .t "unsigned", .t "_Bool", .t "_Complex", .t "_Imaginary",
     .ref "struct_specifier", .ref "union_specifier", .ref "enum_specifier",
     .ref "typedef_name"]),
  ("struct_specifier", .gch
    (seqL (.t "struct")
      [.ref "identifier", .t "\x7b", .ref "struct_declaration_list", .t "\x7d"])
    (.gseq (.t "struct") (.ref "identifier"))),
  ("struct_declaration_list", .rep1 (.ref "struct_declaration")),
  ("struct_declaration", seqL (.ref "specifier_qualifier_list")
    [.ref "struct_declarator_list", .t ";"]),
  ("specifier_qualifier_list", .rep1 (.gch (.ref "type_qualifier") (.ref "type_specifier"))),
  ("struct_declarator_list", .gseq (.ref "struct_declarator")
    (.rep (.gseq (.t ",") (.ref "struct_declarator")))),
  ("struct_declarator", .gch (.ref "declarator")
    (seqL (.opt (.ref "declarator")) [.t ":", .ref "constant_expression"])),
  ("enum_specifier", .gch
    (seqL (.t "enum") [.ref "identifier", .t "\x7b", .ref "enumerator_list", .t "\x7d"])
    (.gseq (.t "enum") (.opt (.ref "identifier")))),
  ("enumerator_list", seqL (.ref "enumerator")
    [.rep (.gseq (.t ",") (.ref "enumerator")), .opt (.t ",")]),
  ("enumerator", .gseq (.ref "enumeration_constant")
    (.opt (.gseq (.t "=") (.ref "constant_expression")))),
  ("enumeration_constant", .ref "identifier"),
  ("typedef_name", .ref "identifier"),
  ("alignment_specifier", .gseq (.t "_Alignas")
    (.gch (seqL (.t "(") [.ref "type_name", .t ")"])
          (seqL (.t "(") [.ref "constant_expression", .t ")"]))),
  ("declarator", chL (.ref "identifier")
    [seqL (.t "(") [.ref "declarator", .t ")"],
     .gseq (.ref "pointer") (.opt (.ref "declarator")),
     seqL (.ref "declarator") [.t "[", .opt (.ref "constant_expression"), .t "]"],
     seqL (.ref "declarator") [.t "(", .ref "parameter_list", .t ")"],
     seqL (.ref "declarator") [.t "(", .opt (.ref "identifier_list"), .t ")"]]),
  ("pointer", .gseq (.t "*") (.opt (.ref "type_qualifier_list"))),
  ("type_qualifier_list", .rep1 (.ref "type_qualifier")),
  ("parameter_list", .gseq (.ref "parameter_declaration")
    (.rep (.gseq (.t ",") (.ref "parameter_declaration")))),
  ("parameter_declaration", .gseq (.ref "declaration_specifiers")
    (.gch (.ref "declarator") (.opt (.ref "abstract_declarator")))),
  ("identifier_list", .gseq (.ref "identifier")
    (.rep (.gseq (.t ",") (.ref "identifier")))),
  ("type_name", .gseq (.ref "specifier_qualifier_list") (.opt (.ref "abstract_declarator"))),
  ("abstract_declarator", chL (.ref "pointer")
    [.gseq (.ref "pointer") (.ref "direct_abstract_declarator"),
     .ref "direct_abstract_declarator"]),
  ("direct_abstract_declarator", chL
    (seqL (.t "(") [.ref "abstract_declarator", .t ")"])
    [seqL (.opt (.ref "direct_abstract_declarator"))
       [.t "[", .opt (.ref "constant_expression"), .t "]"],
     seqL (.opt (.ref "direct_abstract_declarator"))
       [.t "(", .opt (.ref "parameter_list"), .t ")"]]),
  ("_init_declarator_list", .gseq (.ref "_init_declarator")
    (.rep (.gseq (.t ",") (.ref "_init_declarator")))),
  ("_init_declarator", .gseq (.ref "declarator")
    (.opt (.gseq (.t "=") (.ref "initializer")))),
  ("initializer", chL (.ref "assignment_expression")
    [.ref "initializer_list", .ref "compound_initializer"]),
  ("initializer_list", seqL (.ref "initializer")
    [.rep (.gseq (.t ",") (.ref "initializer")), .opt (.t ",")]),
  ("compound_initializer", seqL (.t "\x7b") [.opt (.ref "initializer_list"), .t "\x7d"]),
  ("statement", chL (.ref "labeled_statement")
    [.ref "compound_statement", .ref "expression_statement", .ref "selection_statement",
     .ref "iteration_statement", .ref "jump_statement", .ref "empty_statement"]),
  ("labeled_statement", chL
    (seqL (.ref "identifier") [.t ":", .ref "statement"])
    [seqL (.t "case") [.ref "constant_expression", .t ":", .ref "statement"],
     seqL (.t "default") [.t ":", .ref "statement"]]),
  ("compound_statement", seqL (.t ":")
    [.ref "_indent", .rep (.gch (.ref "statement") (.ref "declaration")), .ref "_dedent"]),
  ("expression_statement", .gseq (.ref "expression") (.opt (.t ";"))),
  ("selection_statement", .gch
    (seqL (.t "if")
      [.ref "parenthesized_expression", .ref "compound_statement",
       .opt (.gseq (.t "else") (.ref "compound_statement"))])
    (seqL (.t "switch")
      [.ref "parenthesized_expression", .t "\x7b", .rep (.ref "labeled_statement"),
       .t "\x7d"])),
  ("iteration_statement", chL
    (seqL (.t "while") [.ref "parenthesized_expression", .ref "compound_statement"])
    [seqL (.t "do")
       [.ref "compound_statement", .t "while", .ref "parenthesized_expression", .t ";"],
     seqL (.t "for")
       [.t "(", .opt (.gch (.ref "declaration") (.ref "expression")), .t ";",
        .opt (.ref "expression"), .t ";", .opt (.ref "expression"), .t ")",
        .ref "compound_statement"]]),
  ("jump_statement", .gseq
    (chL (.gseq (.t "goto") (.ref "identifier"))
      [.t "continue", .t "break", .gseq (.t "return") (.opt (.ref "expression"))])
    (.opt (.t ";"))),
  ("empty_statement", .t ";"),
  ("expression", .gseq (.ref "assignment_expression")
    (.rep (.gseq (.t ",") (.ref "assignment_expression")))),
  ("assignment_expression", .gch (.ref "conditional_expression")
    (seqL (.ref "unary_expression")
      [.ref "assignment_operator", .ref "assignment_expression"])),
  ("assignment_operator", chL (.t "=")
    [.t "*=", .t "/=", .t "%=", .t "+=", .t "-=", .t "<<=", .t ">>=", .t "&=",
     .t "^=", .t "|="]),
  ("conditional_expression", .gseq (.ref "logical_or_expression")
    (.opt (seqL (.t "?") [.ref "expression", .t ":", .ref "conditional_expression"]))),
  ("logical_or_expression", binary_expression (.t "||") (.ref "logical_and_expression")),
  ("logical_and_expression", binary_expression (.t "&&") (.ref "inclusive_or_expression")),
  ("inclusive_or_expression", binary_expression (.t "|") (.ref "exclusive_or_expression")),
  ("exclusive_or_expression", binary_expression (.t "^") (.ref "and_expression")),
  ("and_expression", binary_expression (.t "&") (.ref "equality_expression")),
  ("equality_expression", binary_expression (.gch (.t "==") (.t "!="))
    (.ref "relational_expression")),
  ("relational_expression", binary_expression
    (chL (.t "<") [.t "<=", .t ">", .t ">="]) (.ref "shift_expression")),
  ("shift_expression", binary_expression (.gch (.t "<<") (.t ">>"))
    (.ref "additive_expression")),
  ("additive_expression", binary_expression (.gch (.t "+") (.t "-"))
    (.ref "multiplicative_expression")),
  ("multiplicative_expression", binary_expression (chL (.t "*") [.t "/", .t "%"])
    (.ref "cast_expression")),
  ("cast_expression", .gch
    (seqL (.t "(") [.ref "type_name", .t ")", .ref "cast_expression"])
    (.ref "unary_expression")),
  ("unary_expression", chL (.ref "postfix_expression")
    [.gseq (.gch (.t "++") (.t "--")) (.ref "unary_expression"),
     .gseq (.ref "unary_operator") (.ref "cast_expression"),
     .gseq (.t "sizeof")
       (.gch (.ref "unary_expression") (seqL (.t "(") [.ref "type_name", .t ")"])),
     .gseq (.t "_Alignof") (seqL (.t "(") [.ref "type_name", .t ")"])]),
  ("unary_operator", chL (.t "&") [.t "*", .t "+", .t "-", .t "~", .t "!"]),
  ("postfix_expression", .gseq (.ref "primary_expression")
    (.rep (chL (seqL (.t "[") [.ref "expression", .t "]"])
      [seqL (.t "(") [.opt (.ref "argument_expression_list"), .t ")"],
       .gseq (.t ".") (.ref "identifier"),
       .gseq (.t "->") (.ref "identifier"),
       .t "++", .t "--"]))),
  ("primary_expression", chL (.ref "identifier")
    [.ref "number_literal", .ref "string_literal", .ref "character_literal",
     .ref "parenthesized_expression", .ref "compound_literal"]),
  ("parenthesized_expression", seqL (.t "(") [.ref "expression", .t ")"]),
  ("argument_expression_list", .gseq (.ref "assignment_expression")
    (.rep (.gseq (.t ",") (.ref "assignment_expression")))),
  ("constant_expression", .ref "conditional_expression"),
  ("compound_literal", seqL (.t "(") [.ref "type_name", .t ")", .ref "compound_initializer"]),
  ("identifier", .pat "[a-zA-Z_][a-zA-Z0-9_]*"),
  ("number_literal", chL (.pat "\\d+\\.\\d+")
    [.pat "\\d+", .pat "0[xX][0-9a-fA-F]+", .pat "0[bB][01]+", .pat "0[0-7]+"]),
  ("string_literal", .pat "\"([^\"\\\\]|\\\\.)*\""),
  ("character_literal", .pat "'([^'\\\\]|\\\\.)*'"),
  ("_line_continuation", .pat "\\\\[\\r\\n]")]

/-- The externals array of grammar.js (lines 22-26): the three tokens
produced by the external indentation scanner. -/
def grammarExternals : List String := ["_indent", "_dedent", "_newline"]

/-- The extras array of grammar.js (lines 14-16): a single whitespace
pattern, so every whitespace character may appear between any two tokens. -/
def grammarExtras : List GRule := [.pat "\\s"]

/-- The word token of grammar.js (line 19). -/
def grammarWord : String := "identifier"

/-- The conflicts array of grammar.js (lines 50-53). -/
def grammarConflicts : List (List String) :=
  [["expression_statement", "declaration"], ["compound_statement", "block_item_list"]]

/-- One entry of the precedences array: a precedence name string or a rule
symbol. -/
inductive PrecItem where
  | name : String → PrecItem
  | sym : String → PrecItem
  deriving DecidableEq, Repr

/-- The precedences array of grammar.js (lines 29-47). -/
def grammarPrecedences : List (List PrecItem) :=
  [[.name "multiplication", .name "addition", .name "shift", .name "relational",
    .name "equality", .name "bitwise_and", .name "bitwise_xor", .name "bitwise_or",
    .name "logical_and", .name "logical_or"],
   [.name "assignment"],
   [.name "unary"],
   [.name "call", .sym "unary_expression"],
   [.name "member", .sym "unary_expression"],
   [.name "sizeof", .sym "unary_expression"]]

/-- All rule names referenced (as `$.name`) inside a rule body. -/
def refsOf : GRule → List String
  | .t _ => []
  | .pat _ => []
  | .ref n => [n]
  | .gseq a b => refsOf a ++ refsOf b
  | .gch a b => refsOf a ++ refsOf b
  | .rep r => refsOf r
  | .rep1 r => refsOf r
  | .opt r => refsOf r

/-- All literal token strings appearing inside a rule body. -/
def litsOf : GRule → List String
  | .t s => [s]
  | .pat _ => []
  | .ref _ => []
  | .gseq a b => litsOf a ++ litsOf b
  | .gch a b => litsOf a ++ litsOf b
  | .rep r => litsOf r
  | .rep1 r => litsOf r
  | .opt r => litsOf r

/-- The names of the rules defined in grammar.js. -/
def definedNames : List String := grammarRules.map Prod.fst

/-- Concatenate the reference lists of a rule set. -/
def refsOfRules : List (String × GRule) → List String
  | [] => []
  | p :: rest => refsOf p.2 ++ refsOfRules rest

/-- Every rule name referenced anywhere in the rules of grammar.js. -/
def allReferencedNames : List String := refsOfRules grammarRules

/-- The names of the rules whose bodies reference `n`. -/
def rulesReferencing (n : String) : List String :=
  (grammarRules.filter (fun p => n ∈ refsOf p.2)).map Prod.fst

/-- The rule names of the statement layer of the grammar. -/
def statementRuleNames : List String :=
  ["statement", "labeled_statement", "compound_statement", "expression_statement",
   "selection_statement", "iteration_statement", "jump_statement", "empty_statement"]

/-- The statement-layer rules whose bodies contain a literal `'{'`. -/
def statementRulesWithBrace : List String :=
  (grammarRules.filter
    (fun p => p.1 ∈ statementRuleNames ∧ "\x7b" ∈ litsOf p.2)).map Prod.fst

/-!  Embedding lemmas: each precedence level contains the next tighter
level (an operand with an empty repeat tail), mirroring the nesting of the
`binary_expression` calls in grammar.js. -/

theorem pf_of_primary (h : primary_expression ts) : postfix_expression ts := by
  have h2 := Der.pf_mk h Der.pf_nil
  simpa using h2

theorem unary_of_pf (h : postfix_expression ts) : unary_expression ts :=
  Der.unary_postfix h

theorem cast_of_unary (h : unary_expression ts) : cast_expression ts :=
  Der.cast_unary h

theorem mul_of_cast (h : cast_expression ts) : multiplicative_expression ts := by
  have h2 := Der.mul_mk h Der.mul_tail_nil
  simpa using h2

theorem add_of_mul (h : multiplicative_expression ts) : additive_expression ts := by
  have h2 := Der.add_mk h Der.add_tail_nil
  simpa using h2

theorem shift_of_add (h : additive_expression ts) : shift_expression ts := by
  have h2 := Der.shift_mk h Der.shift_tail_nil
  simpa using h2

theorem rel_of_shift (h : shift_expression ts) : relational_expression ts := by
  have h2 := Der.rel_mk h Der.rel_tail_nil
  simpa using h2

theorem eq_of_rel (h : relational_expression ts) : equality_expression ts := by
  have h2 := Der.eq_mk h Der.eq_tail_nil
  simpa using h2

theorem and_of_eq (h : equality_expression ts) : and_expression ts := by
  have h2 := Der.and_mk h Der.and_tail_nil
  simpa using h2

theorem xor_of_and (h : and_expression ts) : exclusive_or_expression ts := by
  have h2 := Der.xor_mk h Der.xor_tail_nil
  simpa using h2

theorem ior_of_xor (h : exclusive_or_expression ts) : inclusive_or_expression ts := by
  have h2 := Der.ior_mk h Der.ior_tail_nil
  simpa using h2

theorem land_of_ior (h : inclusive_or_expression ts) : logical_and_expression ts := by
  have h2 := Der.land_mk h Der.land_tail_nil
  simpa using h2

theorem lor_of_land (h : logical_and_expression ts) : logical_or_expression ts := by
  have h2 := Der.lor_mk h Der.lor_tail_nil
  simpa using h2

theorem cond_of_lor (h : logical_or_expression ts) : conditional_expression ts :=
  Der.cond_base h

theorem assign_of_cond (h : conditional_expression ts) : assignment_expression ts :=
  Der.assign_cond h

theorem expr_of_assign (h : assignment_expression ts) : expression ts := by
  have h2 := Der.expr_mk h Der.expr_tail_nil
  simpa using h2

theorem lor_of_cast (h : cast_expression ts) : logical_or_expression ts :=
  lor_of_land (land_of_ior (ior_of_xor (xor_of_and (and_of_eq (eq_of_rel
    (rel_of_shift (shift_of_add (add_of_mul (mul_of_cast h)))))))))

theorem assign_of_unary (h : unary_expression ts) : assignment_expression ts :=
  assign_of_cond (cond_of_lor (lor_of_cast (cast_of_unary h)))

theorem expr_of_primary (h : primary_expression ts) : expression ts :=
  expr_of_assign (assign_of_unary (unary_of_pf (pf_of_primary h)))

/-- A single identifier token as a primary_expression. -/
theorem prim_ident (s : String) (h : isIdentName s = true) :
    primary_expression [Tok.ident s] :=
  Der.primary_id ⟨s, rfl, h⟩

/-- A single number token as a primary_expression. -/
theorem prim_num (s : String) (h : isNumberLit s = true) :
    primary_expression [Tok.num s] :=
  Der.primary_num ⟨s, rfl, h⟩

/-- A single identifier token as a full expression. -/
theorem expr_ident (s : String) (h : isIdentName s = true) :
    expression [Tok.ident s] :=
  expr_of_primary (prim_ident s h)

/-!  Concrete token strings used by the claims. -/

/-- Tokens of `(n <= 1)`. -/
def ifCondToks : List Tok :=
  [Tok.lit "(", Tok.ident "n", Tok.lit "<=", Tok.num "1", Tok.lit ")"]

/-- Tokens of `return n`. -/
def retToks : List Tok := [Tok.lit "return", Tok.ident "n"]

/-- Tokens of `if (n <= 1):` followed by an indented `return n`, as the
scanner hands them to the grammar: BLOCK-START after the colon, the block
body, BLOCK-END at the end. -/
def ifReturnToks : List Tok :=
  Tok.lit "if" :: ifCondToks ++ Tok.lit ":" :: Tok.indent :: retToks ++ [Tok.dedent]

/-- Tokens of `(x)`. -/
def parenXToks : List Tok := [Tok.lit "(", Tok.ident "x", Tok.lit ")"]

/-- Tokens of `case 1: foo()`. -/
def caseOneToks : List Tok :=
  [Tok.lit "case", Tok.num "1", Tok.lit ":", Tok.ident "foo", Tok.lit "(", Tok.lit ")"]

/-- Tokens of `case 2: bar()`. -/
def caseTwoToks : List Tok :=
  [Tok.lit "case", Tok.num "2", Tok.lit ":", Tok.ident "bar", Tok.lit "(", Tok.lit ")"]

/-- Tokens of `switch (x) { case 1: foo() case 2: bar() }`. -/
def switchToks : List Tok :=
  Tok.lit "switch" :: parenXToks ++
    Tok.lit "\x7b" :: (caseOneToks ++ caseTwoToks) ++ [Tok.lit "\x7d"]

/-- Tokens of an empty indentation block `:` BLOCK-START BLOCK-END. -/
def emptyBlockToks : List Tok := [Tok.lit ":", Tok.indent, Tok.dedent]

/-- Tokens of `do:` (empty block) `while (x);`. -/
def doSemiToks : List Tok :=
  Tok.lit "do" :: emptyBlockToks ++ Tok.lit "while" :: parenXToks ++ [Tok.lit ";"]

/-- Tokens of `do:` (empty block) `while (x)` with no final `';'`. -/
def doNoSemiToks : List Tok :=
  Tok.lit "do" :: emptyBlockToks ++ Tok.lit "while" :: parenXToks

/-- Tokens of `MyType x`. -/
def myTypeToks : List Tok := [Tok.ident "MyType", Tok.ident "x"]

/-- Tokens of `foo(x)`. -/
def fooCallToks : List Tok :=
  [Tok.ident "foo", Tok.lit "(", Tok.ident "x", Tok.lit ")"]

/-- Tokens of `int main ( void ) :` BLOCK-START `return 0` BLOCK-END, a
candidate cspaced function definition. -/
def fnDefToks : List Tok :=
  [Tok.lit "int", Tok.ident "main", Tok.lit "(", Tok.lit "void", Tok.lit ")",
   Tok.lit ":", Tok.indent, Tok.lit "return", Tok.num "0", Tok.dedent]

/-- The parenthesized expression `(x)` derives. -/
theorem paren_x : parenthesized_expression parenXToks :=
  Der.paren_mk (expr_ident "x" (by decide))

/-- The empty indentation block derives. -/
theorem empty_block : compound_statement emptyBlockToks :=
  Der.compound_mk Der.items_nil

/-!  Inversion machinery.  `litsOnly S ts` bounds the literal tokens that
occur in `ts`; every alternative of the expression grammar below the
comma level consumes some literal from `belowAssignLits`, so an
assignment_expression whose literals avoid that set must be one atom. -/

/-- Every literal token of `ts` is in `S`. -/
def litsOnly (S : List String) (ts : List Tok) : Prop :=
  ∀ s, Tok.lit s ∈ ts → s ∈ S

/-- Atomic expression tokens: identifiers and literals. -/
def atomTok : Tok → Bool
  | .ident _ => true
  | .num _ => true
  | .str _ => true
  | .chr _ => true
  | _ => false

/-- All literal strings that the alternatives of the expression grammar at
or below assignment_expression can consume at their own level. -/
def belowAssignLits : List String :=
  ["=", "*=", "/=", "%=", "+=", "-=", "<<=", ">>=", "&=", "^=", "|=",
   "?", ":", "||", "&&", "|", "^", "&", "==", "!=", "<", "<=", ">", ">=",
   "<<", ">>", "+", "-", "*", "/", "%", "(", "[", ".", "->", "++", "--",
   "sizeof", "_Alignof", "~", "!"]

theorem expr_only (h : expression ts) (hf : litsOnly S ts) (hc : "," ∉ S) :
    assignment_expression ts := by
  cases h with
  | expr_mk ha ht =>
    cases ht with
    | expr_tail_nil => simpa using ha
    | expr_tail_cons hb ht2 => exact absurd (hf "," (by simp)) hc

theorem assign_only (h : assignment_expression ts) (hf : litsOnly S ts)
    (hS : ∀ x ∈ S, x ∉ belowAssignLits) : conditional_expression ts := by
  cases h with
  | assign_cond hc2 => exact hc2
  | assign_mk hu ho hr =>
      obtain ⟨s, rfl, hs⟩ := ho
      exact absurd ((by decide :
          ["=", "*=", "/=", "%=", "+=", "-=", "<<=", ">>=", "&=", "^=", "|="] ⊆
            belowAssignLits) hs)
        (hS s (hf s (by simp)))

theorem cond_only (h : conditional_expression ts) (hf : litsOnly S ts)
    (hS : ∀ x ∈ S, x ∉ belowAssignLits) : logical_or_expression ts := by
  cases h with
  | cond_base hb => exact hb
  | cond_ternary h1 h2 h3 =>
      exact absurd (by decide : "?" ∈ belowAssignLits) (hS _ (hf _ (by simp)))

theorem lor_only (h : logical_or_expression ts) (hf : litsOnly S ts)
    (hS : ∀ x ∈ S, x ∉ belowAssignLits) : logical_and_expression ts := by
  cases h with
  | lor_mk ha ht =>
    cases ht with
    | lor_tail_nil => simpa using ha
    | lor_tail_cons hb ht2 =>
        exact absurd (by decide : "||" ∈ belowAssignLits) (hS _ (hf _ (by simp)))

theorem land_only (h : logical_and_expression ts) (hf : litsOnly S ts)
    (hS : ∀ x ∈ S, x ∉ belowAssignLits) : inclusive_or_expression ts := by
  cases h with
  | land_mk ha ht =>
    cases ht with
    | land_tail_nil => simpa using ha
    | land_tail_cons hb ht2 =>
        exact absurd (by decide : "&&" ∈ belowAssignLits) (hS _ (hf _ (by simp)))

theorem ior_only (h : inclusive_or_expression ts) (hf : litsOnly S ts)
    (hS : ∀ x ∈ S, x ∉ belowAssignLits) : exclusive_or_expression ts := by
  cases h with
  | ior_mk ha ht =>
    cases ht with
    | ior_tail_nil => simpa using ha
    | ior_tail_cons hb ht2 =>
        exact absurd (by decide : "|" ∈ belowAssignLits) (hS _ (hf _ (by simp)))

theorem xor_only (h : exclusive_or_expression ts) (hf : litsOnly S ts)
    (hS : ∀ x ∈ S, x ∉ belowAssignLits) : and_expression ts := by
  cases h with
  | xor_mk ha ht =>
    cases ht with
    | xor_tail_nil => simpa using ha
    | xor_tail_cons hb ht2 =>
        exact absurd (by decide : "^" ∈ belowAssignLits) (hS _ (hf _ (by simp)))

theorem and_only (h : and_expression ts) (hf : litsOnly S ts)
    (hS : ∀ x ∈ S, x ∉ belowAssignLits) : equality_expression ts := by
  cases h with
  | and_mk ha ht =>
    cases ht with
    | and_tail_nil => simpa using ha
    | and_tail_cons hb ht2 =>
        exact absurd (by decide : "&" ∈ belowAssignLits) (hS _ (hf _ (by simp)))

theorem eq_only (h : equality_expression ts) (hf : litsOnly S ts)
    (hS : ∀ x ∈ S, x ∉ belowAssignLits) : relational_expression ts := by
  cases h with
  | eq_mk ha ht =>
    cases ht with
    | eq_tail_nil => simpa using ha
    | eq_tail_cons ho hb ht2 =>
        exact absurd ((by decide : ["==", "!="] ⊆ belowAssignLits) ho)
          (hS _ (hf _ (by simp)))

theorem rel_only (h : relational_expression ts) (hf : litsOnly S ts)
    (hS : ∀ x ∈ S, x ∉ belowAssignLits) : shift_expression ts := by
  cases h with
  | rel_mk ha ht =>
    cases ht with
    | rel_tail_nil => simpa using ha
    | rel_tail_cons ho hb ht2 =>
        exact absurd ((by decide : ["<", "<=", ">", ">="] ⊆ belowAssignLits) ho)
          (hS _ (hf _ (by simp)))

theorem shift_only (h : shift_expression ts) (hf : litsOnly S ts)
    (hS : ∀ x ∈ S, x ∉ belowAssignLits) : additive_expression ts := by
  cases h with
  | shift_mk ha ht =>
    cases ht with
    | shift_tail_nil => simpa using ha
    | shift_tail_cons ho hb ht2 =>
        exact absurd ((by decide : ["<<", ">>"] ⊆ belowAssignLits) ho)
          (hS _ (hf _ (by simp)))

theorem add_only (h : additive_expression ts) (hf : litsOnly S ts)
    (hS : ∀ x ∈ S, x ∉ belowAssignLits) : multiplicative_expression ts := by
  cases h with
  | add_mk ha ht =>
    cases ht with
    | add_tail_nil => simpa using ha
    | add_tail_cons ho hb ht2 =>
        exact absurd ((by decide : ["+", "-"] ⊆ belowAssignLits) ho)
          (hS _ (hf _ (by simp)))

theorem mul_only (h : multiplicative_expression ts) (hf : litsOnly S ts)
    (hS : ∀ x ∈ S, x ∉ belowAssignLits) : cast_expression ts := by
  cases h with
  | mul_mk ha ht =>
    cases ht with
    | mul_tail_nil => simpa using ha
    | mul_tail_cons ho hb ht2 =>
        exact absurd ((by decide : ["*", "/", "%"] ⊆ belowAssignLits) ho)
          (hS _ (hf _ (by simp)))

theorem cast_only (h : cast_expression ts) (hf : litsOnly S ts)
    (hS : ∀ x ∈ S, x ∉ belowAssignLits) : unary_expression ts := by
  cases h with
  | cast_unary hu => exact hu
  | cast_mk h1 h2 =>
      exact absurd (by decide : "(" ∈ belowAssignLits) (hS _ (hf _ (by simp)))

theorem unary_only (h : unary_expression ts) (hf : litsOnly S ts)
    (hS : ∀ x ∈ S, x ∉ belowAssignLits) : postfix_expression ts := by
  cases h with
  | unary_postfix hp => exact hp
  | unary_incr ho hu =>
      exact absurd ((by decide : ["++", "--"] ⊆ belowAssignLits) ho)
        (hS _ (hf _ (by simp)))
  | unary_op ho hcst =>
      obtain ⟨s, rfl, hs⟩ := ho
      exact absurd ((by decide : ["&", "*", "+", "-", "~", "!"] ⊆ belowAssignLits) hs)
        (hS s (hf s (by simp)))
  | unary_sizeof hu =>
      exact absurd (by decide : "sizeof" ∈ belowAssignLits) (hS _ (hf _ (by simp)))
  | unary_sizeof_type h1 =>
      exact absurd (by decide : "sizeof" ∈ belowAssignLits) (hS _ (hf _ (by simp)))
  | unary_alignof h1 =>
      exact absurd (by decide : "_Alignof" ∈ belowAssignLits) (hS _ (hf _ (by simp)))

theorem pf_only (h : postfix_expression ts) (hf : litsOnly S ts)
    (hS : ∀ x ∈ S, x ∉ belowAssignLits) : primary_expression ts := by
  cases h with
  | pf_mk hp ht =>
    cases ht with
    | pf_nil => simpa using hp
    | pf_index h1 h2 =>
        exact absurd (by decide : "[" ∈ belowAssignLits) (hS _ (hf _ (by simp)))
    | pf_call h1 h2 =>
        exact absurd (by decide : "(" ∈ belowAssignLits) (hS _ (hf _ (by simp)))
    | pf_call_empty h1 =>
        exact absurd (by decide : "(" ∈ belowAssignLits) (hS _ (hf _ (by simp)))
    | pf_member h1 h2 =>
        exact absurd (by decide : "." ∈ belowAssignLits) (hS _ (hf _ (by simp)))
    | pf_arrow h1 h2 =>
        exact absurd (by decide : "->" ∈ belowAssignLits) (hS _ (hf _ (by simp)))
    | pf_inc h1 =>
        exact absurd (by decide : "++" ∈ belowAssignLits) (hS _ (hf _ (by simp)))
    | pf_dec h1 =>
        exact absurd (by decide : "--" ∈ belowAssignLits) (hS _ (hf _ (by simp)))

theorem primary_only (h : primary_expression ts) (hf : litsOnly S ts)
    (hS : ∀ x ∈ S, x ∉ belowAssignLits) : ∃ t, ts = [t] ∧ atomTok t = true := by
  cases h with
  | primary_id hi => obtain ⟨s, rfl, _⟩ := hi; exact ⟨_, rfl, rfl⟩
  | primary_num hi => obtain ⟨s, rfl, _⟩ := hi; exact ⟨_, rfl, rfl⟩
  | primary_str hi => obtain ⟨s, rfl, _⟩ := hi; exact ⟨_, rfl, rfl⟩
  | primary_chr hi => obtain ⟨s, rfl, _⟩ := hi; exact ⟨_, rfl, rfl⟩
  | primary_paren hp =>
      cases hp with
      | paren_mk h1 =>
          exact absurd (by decide : "(" ∈ belowAssignLits) (hS _ (hf _ (by simp)))
  | primary_compound hp =>
      cases hp with
      | compound_literal_mk h1 h2 =>
          exact absurd (by decide : "(" ∈ belowAssignLits) (hS _ (hf _ (by simp)))

/-- Composition of the descent chain: an assignment_expression whose
literal tokens all avoid `belowAssignLits` is a single atomic token. -/
theorem assign_atom (h : assignment_expression ts) (hf : litsOnly S ts)
    (hS : ∀ x ∈ S, x ∉ belowAssignLits) : ∃ t, ts = [t] ∧ atomTok t = true := by
  have h1 := assign_only h hf hS
  have h2 := cond_only h1 hf hS
  have h3 := lor_only h2 hf hS
  have h4 := land_only h3 hf hS
  have h5 := ior_only h4 hf hS
  have h6 := xor_only h5 hf hS
  have h7 := and_only h6 hf hS
  have h8 := eq_only h7 hf hS
  have h9 := rel_only h8 hf hS
  have h10 := shift_only h9 hf hS
  have h11 := add_only h10 hf hS
  have h12 := mul_only h11 hf hS
  have h13 := cast_only h12 hf hS
  have h14 := unary_only h13 hf hS
  have h15 := pf_only h14 hf hS
  exact primary_only h15 hf hS

/-- Rule external_declaration (grammar.js lines 64-69).  The
function_definition branch derives nothing because that rule is never
defined. -/
inductive external_declaration : List Tok → Prop
  | fn : function_definition ts → external_declaration ts
  | decl : declaration ts → external_declaration ts
  | preproc : preproc_directive ts → external_declaration ts
  | empty : empty_statement ts → external_declaration ts

/-- Rule translation_unit (repeated external declarations or empty
statements). -/
inductive translation_unit : List Tok → Prop
  | nil : translation_unit []
  | cons_ext : external_declaration a → translation_unit b → translation_unit (a ++ b)
  | cons_empty : empty_statement a → translation_unit b → translation_unit (a ++ b)

/-!  Shape lemmas for strings of the form identifier-literal-rest: which
literal can follow an identifier inside one expression operand. -/

/-- The literal strings that may start a postfix operator suffix. -/
def pfExtSet : List String := ["[", "(", ".", "->", "++", "--"]

theorem primary_shape (h : primary_expression ts) :
    (∃ t, ts = [t] ∧ atomTok t = true) ∨ ∃ rest, ts = Tok.lit "(" :: rest := by
  cases h with
  | primary_id hi => obtain ⟨s, rfl, _⟩ := hi; exact .inl ⟨_, rfl, rfl⟩
  | primary_num hi => obtain ⟨s, rfl, _⟩ := hi; exact .inl ⟨_, rfl, rfl⟩
  | primary_str hi => obtain ⟨s, rfl, _⟩ := hi; exact .inl ⟨_, rfl, rfl⟩
  | primary_chr hi => obtain ⟨s, rfl, _⟩ := hi; exact .inl ⟨_, rfl, rfl⟩
  | primary_paren hp => cases hp with | paren_mk h1 => exact .inr ⟨_, rfl⟩
  | primary_compound hp =>
      cases hp with | compound_literal_mk h1 h2 => exact .inr ⟨_, rfl⟩

theorem pf_tail_shape (h : Der .pf_tail ts) :
    ts = [] ∨ ∃ o rest, ts = Tok.lit o :: rest ∧ o ∈ pfExtSet := by
  cases h with
  | pf_nil => exact .inl rfl
  | pf_index h1 h2 => exact .inr ⟨"[", _, rfl, by decide⟩
  | pf_call h1 h2 => exact .inr ⟨"(", _, rfl, by decide⟩
  | pf_call_empty h1 => exact .inr ⟨"(", _, rfl, by decide⟩
  | pf_member h1 h2 => exact .inr ⟨".", _, rfl, by decide⟩
  | pf_arrow h1 h2 => exact .inr ⟨"->", _, rfl, by decide⟩
  | pf_inc h1 => exact .inr ⟨"++", _, rfl, by decide⟩
  | pf_dec h1 => exact .inr ⟨"--", _, rfl, by decide⟩

theorem postfix_mid (h : postfix_expression ts)
    (he : ts = Tok.ident a :: Tok.lit o :: rest) : o ∈ pfExtSet := by
  cases h with
  | pf_mk hp ht =>
    rcases primary_shape hp with ⟨tk, rfl, hat⟩ | ⟨r2, rfl⟩
    · simp only [List.cons_append, List.nil_append] at he
      obtain ⟨rfl, rfl⟩ : tk = Tok.ident a ∧ _ = Tok.lit o :: rest := by
        simpa using he
      rcases pf_tail_shape ht with h0 | ⟨o2, r3, heq2, ho2⟩
      · simp at h0
      · obtain ⟨h1, h2⟩ : o = o2 ∧ rest = r3 := by simpa using heq2
        exact h1 ▸ ho2
    · simp at he

theorem unary_mid (h : unary_expression ts)
    (he : ts = Tok.ident a :: Tok.lit o :: rest) : o ∈ pfExtSet := by
  cases h with
  | unary_postfix hp => exact postfix_mid hp he
  | unary_incr ho hu => simp at he
  | unary_op ho hcst => obtain ⟨s, rfl, hs⟩ := ho; simp at he
  | unary_sizeof hu => simp at he
  | unary_sizeof_type h1 => simp at he
  | unary_alignof h1 => simp at he

theorem cast_mid (h : cast_expression ts)
    (he : ts = Tok.ident a :: Tok.lit o :: rest) : o ∈ pfExtSet := by
  cases h with
  | cast_unary hu => exact unary_mid hu he
  | cast_mk h1 h2 => simp at he

theorem mul_mid (h : multiplicative_expression ts)
    (he : ts = [Tok.ident a, Tok.lit o, Tok.ident b]) :
    o ∈ pfExtSet ∨ o ∈ ["*", "/", "%"] := by
  cases h with
  | mul_mk hc ht =>
    rename_i ca ta
    cases ht with
    | mul_tail_nil =>
        rw [List.append_nil] at he
        exact .inl (cast_mid hc he)
    | mul_tail_cons ho hb ht2 =>
        rcases ca with _ | ⟨x, ca⟩
        · simp at he
        · simp only [List.cons_append] at he
          obtain ⟨rfl, he⟩ : x = Tok.ident a ∧ _ = [Tok.lit o, Tok.ident b] := by
            simpa using he
          rcases ca with _ | ⟨y, ca⟩
          · obtain ⟨h1, h2⟩ : _ = o ∧ _ := by simpa using he
            exact .inr (h1 ▸ ho)
          · simp only [List.cons_append] at he
            obtain ⟨rfl, he⟩ : y = Tok.lit o ∧ _ = [Tok.ident b] := by
              simpa using he
            rcases ca with _ | ⟨z, ca⟩
            · simp at he
            · simp at he

/-!  Left-associative form of a binary level: the standard left-recursive
production `A → A op B | B`, stated generically over an operand predicate
and an operator set.  Each flat `binary_expression` level of grammar.js
generates exactly the same strings as this left-recursive form. -/

/-- Left-recursive (left-associative) form of one binary precedence
level. -/
inductive lassoc (P : List Tok → Prop) (ops : List String) : List Tok → Prop
  | base : P ts → lassoc P ops ts
  | step : lassoc P ops a → o ∈ ops → P b → lassoc P ops (a ++ Tok.lit o :: b)

/-- The repeated `(op operand)*` tail of one binary level, stated
generically. -/
inductive flat_rep (P : List Tok → Prop) (ops : List String) : List Tok → Prop
  | nil : flat_rep P ops []
  | cons : o ∈ ops → P a → flat_rep P ops t → flat_rep P ops (Tok.lit o :: a ++ t)

theorem lassoc_append_flat {P : List Tok → Prop} {ops : List String}
    (h : lassoc P ops a) (ht : flat_rep P ops t) : lassoc P ops (a ++ t) := by
  induction ht generalizing a with
  | nil => simpa using h
  | cons ho hb ht2 ih =>
      have h2 := ih (lassoc.step h ho hb)
      simpa [List.append_assoc] using h2

theorem flat_rep_snoc {P : List Tok → Prop} {ops : List String}
    (h : flat_rep P ops t) (ho : o ∈ ops) (hb : P b) :
    flat_rep P ops (t ++ Tok.lit o :: b) := by
  induction h with
  | nil => simpa using flat_rep.cons ho hb flat_rep.nil
  | cons ho2 ha2 ht2 ih =>
      have h2 := flat_rep.cons ho2 ha2 ih
      simpa [List.append_assoc] using h2

theorem lassoc_decomp {P : List Tok → Prop} {ops : List String}
    (h : lassoc P ops ts) : ∃ a t, P a ∧ flat_rep P ops t ∧ ts = a ++ t := by
  induction h with
  | base hp => exact ⟨_, [], hp, flat_rep.nil, by simp⟩
  | step h1 ho hb ih =>
      obtain ⟨a, t, hpa, hft, rfl⟩ := ih
      exact ⟨a, t ++ Tok.lit _ :: _, hpa, flat_rep_snoc hft ho hb,
        by simp [List.append_assoc]⟩

/-- The motive of the tail-to-flat conversion: each binary-level repeat
tail of the grammar is a `flat_rep` over its operand level. -/
def tailFlatMotive : NT → List Tok → Prop
  | .lor_tail, ts => flat_rep (Der .logical_and_expression) ["||"] ts
  | .land_tail, ts => flat_rep (Der .inclusive_or_expression) ["&&"] ts
  | .ior_tail, ts => flat_rep (Der .exclusive_or_expression) ["|"] ts
  | .xor_tail, ts => flat_rep (Der .and_expression) ["^"] ts
  | .and_tail, ts => flat_rep (Der .equality_expression) ["&"] ts
  | .eq_tail, ts => flat_rep (Der .relational_expression) ["==", "!="] ts
  | .rel_tail, ts => flat_rep (Der .shift_expression) ["<", "<=", ">", ">="] ts
  | .shift_tail, ts => flat_rep (Der .additive_expression) ["<<", ">>"] ts
  | .add_tail, ts => flat_rep (Der .multiplicative_expression) ["+", "-"] ts
  | .mul_tail, ts => flat_rep (Der .cast_expression) ["*", "/", "%"] ts
  | _, _ => True

theorem tails_flat (h : Der n ts) : tailFlatMotive n ts := by
  induction h <;> first
    | trivial
    | exact flat_rep.nil
    | exact flat_rep.cons (by decide) (by assumption) (by assumption)
    | exact flat_rep.cons (by assumption) (by assumption) (by assumption)

theorem lor_tail_of_flat (h : flat_rep (Der .logical_and_expression) ["||"] t) :
    Der .lor_tail t := by
  induction h with
  | nil => exact Der.lor_tail_nil
  | cons ho ha ht ih => simp at ho; subst ho; exact Der.lor_tail_cons ha ih

theorem land_tail_of_flat (h : flat_rep (Der .inclusive_or_expression) ["&&"] t) :
    Der .land_tail t := by
  induction h with
  | nil => exact Der.land_tail_nil
  | cons ho ha ht ih => simp at ho; subst ho; exact Der.land_tail_cons ha ih

theorem ior_tail_of_flat (h : flat_rep (Der .exclusive_or_expression) ["|"] t) :
    Der .ior_tail t := by
  induction h with
  | nil => exact Der.ior_tail_nil
  | cons ho ha ht ih => simp at ho; subst ho; exact Der.ior_tail_cons ha ih

theorem xor_tail_of_flat (h : flat_rep (Der .and_expression) ["^"] t) :
    Der .xor_tail t := by
  induction h with
  | nil => exact Der.xor_tail_nil
  | cons ho ha ht ih => simp at ho; subst ho; exact Der.xor_tail_cons ha ih

theorem and_tail_of_flat (h : flat_rep (Der .equality_expression) ["&"] t) :
    Der .and_tail t := by
  induction h with
  | nil => exact Der.and_tail_nil
  | cons ho ha ht ih => simp at ho; subst ho; exact Der.and_tail_cons ha ih

theorem eq_tail_of_flat (h : flat_rep (Der .relational_expression) ["==", "!="] t) :
    Der .eq_tail t := by
  induction h with
  | nil => exact Der.eq_tail_nil
  | cons ho ha ht ih => exact Der.eq_tail_cons ho ha ih

theorem rel_tail_of_flat (h : flat_rep (Der .shift_expression) ["<", "<=", ">", ">="] t) :
    Der .rel_tail t := by
  induction h with
  | nil => exact Der.rel_tail_nil
  | cons ho ha ht ih => exact Der.rel_tail_cons ho ha ih

theorem shift_tail_of_flat (h : flat_rep (Der .additive_expression) ["<<", ">>"] t) :
    Der .shift_tail t := by
  induction h with
  | nil => exact Der.shift_tail_nil
  | cons ho ha ht ih => exact Der.shift_tail_cons ho ha ih

theorem add_tail_of_flat (h : flat_rep (Der .multiplicative_expression) ["+", "-"] t) :
    Der .add_tail t := by
  induction h with
  | nil => exact Der.add_tail_nil
  | cons ho ha ht ih => exact Der.add_tail_cons ho ha ih

theorem mul_tail_of_flat (h : flat_rep (Der .cast_expression) ["*", "/", "%"] t) :
    Der .mul_tail t := by
  induction h with
  | nil => exact Der.mul_tail_nil
  | cons ho ha ht ih => exact Der.mul_tail_cons ho ha ih

theorem lor_lassoc (ts : List Tok) : logical_or_expression ts ↔
    lassoc (Der .logical_and_expression) ["||"] ts := by
  constructor
  · intro h
    cases h with
    | lor_mk ha ht => exact lassoc_append_flat (lassoc.base ha) (tails_flat ht)
  · intro h
    obtain ⟨a, t, hpa, hft, rfl⟩ := lassoc_decomp h
    exact Der.lor_mk hpa (lor_tail_of_flat hft)

theorem land_lassoc (ts : List Tok) : logical_and_expression ts ↔
    lassoc (Der .inclusive_or_expression) ["&&"] ts := by
  constructor
  · intro h
    cases h with
    | land_mk ha ht => exact lassoc_append_flat (lassoc.base ha) (tails_flat ht)
  · intro h
    obtain ⟨a, t, hpa, hft, rfl⟩ := lassoc_decomp h
    exact Der.land_mk hpa (land_tail_of_flat hft)

theorem ior_lassoc (ts : List Tok) : inclusive_or_expression ts ↔
    lassoc (Der .exclusive_or_expression) ["|"] ts := by
  constructor
  · intro h
    cases h with
    | ior_mk ha ht => exact lassoc_append_flat (lassoc.base ha) (tails_flat ht)
  · intro h
    obtain ⟨a, t, hpa, hft, rfl⟩ := lassoc_decomp h
    exact Der.ior_mk hpa (ior_tail_of_flat hft)

theorem xor_lassoc (ts : List Tok) : exclusive_or_expression ts ↔
    lassoc (Der .and_expression) ["^"] ts := by
  constructor
  · intro h
    cases h with
    | xor_mk ha ht => exact lassoc_append_flat (lassoc.base ha) (tails_flat ht)
  · intro h
    obtain ⟨a, t, hpa, hft, rfl⟩ := lassoc_decomp h
    exact Der.xor_mk hpa (xor_tail_of_flat hft)

theorem and_lassoc (ts : List Tok) : and_expression ts ↔
    lassoc (Der .equality_expression) ["&"] ts := by
  constructor
  · intro h
    cases h with
    | and_mk ha ht => exact lassoc_append_flat (lassoc.base ha) (tails_flat ht)
  · intro h
    obtain ⟨a, t, hpa, hft, rfl⟩ := lassoc_decomp h
    exact Der.and_mk hpa (and_tail_of_flat hft)

theorem eq_lassoc (ts : List Tok) : equality_expression ts ↔
    lassoc (Der .relational_expression) ["==", "!="] ts := by
  constructor
  · intro h
    cases h with
    | eq_mk ha ht => exact lassoc_append_flat (lassoc.base ha) (tails_flat ht)
  · intro h
    obtain ⟨a, t, hpa, hft, rfl⟩ := lassoc_decomp h
    exact Der.eq_mk hpa (eq_tail_of_flat hft)

theorem rel_lassoc (ts : List Tok) : relational_expression ts ↔
    lassoc (Der .shift_expression) ["<", "<=", ">", ">="] ts := by
  constructor
  · intro h
    cases h with
    | rel_mk ha ht => exact lassoc_append_flat (lassoc.base ha) (tails_flat ht)
  · intro h
    obtain ⟨a, t, hpa, hft, rfl⟩ := lassoc_decomp h
    exact Der.rel_mk hpa (rel_tail_of_flat hft)

theorem shift_lassoc (ts : List Tok) : shift_expression ts ↔
    lassoc (Der .additive_expression) ["<<", ">>"] ts := by
  constructor
  · intro h
    cases h with
    | shift_mk ha ht => exact lassoc_append_flat (lassoc.base ha) (tails_flat ht)
  · intro h
    obtain ⟨a, t, hpa, hft, rfl⟩ := lassoc_decomp h
    exact Der.shift_mk hpa (shift_tail_of_flat hft)

theorem add_lassoc (ts : List Tok) : additive_expression ts ↔
    lassoc (Der .multiplicative_expression) ["+", "-"] ts := by
  constructor
  · intro h
    cases h with
    | add_mk ha ht => exact lassoc_append_flat (lassoc.base ha) (tails_flat ht)
  · intro h
    obtain ⟨a, t, hpa, hft, rfl⟩ := lassoc_decomp h
    exact Der.add_mk hpa (add_tail_of_flat hft)

theorem mul_lassoc (ts : List Tok) : multiplicative_expression ts ↔
    lassoc (Der .cast_expression) ["*", "/", "%"] ts := by
  constructor
  · intro h
    cases h with
    | mul_mk ha ht => exact lassoc_append_flat (lassoc.base ha) (tails_flat ht)
  · intro h
    obtain ⟨a, t, hpa, hft, rfl⟩ := lassoc_decomp h
    exact Der.mul_mk hpa (mul_tail_of_flat hft)

/-!  Concrete derivations used by the claims. -/

theorem shift_of_primary (h : primary_expression ts) : shift_expression ts :=
  shift_of_add (add_of_mul (mul_of_cast (cast_of_unary (unary_of_pf (pf_of_primary h)))))

theorem expr_of_rel (h : relational_expression ts) : expression ts :=
  expr_of_assign (assign_of_cond (cond_of_lor (lor_of_land (land_of_ior (ior_of_xor
    (xor_of_and (and_of_eq (eq_of_rel h))))))))

theorem cast_atom (s : String) (h : isIdentName s = true) :
    cast_expression [Tok.ident s] :=
  cast_of_unary (unary_of_pf (pf_of_primary (prim_ident s h)))

theorem unary_atom (s : String) (h : isIdentName s = true) :
    unary_expression [Tok.ident s] :=
  unary_of_pf (pf_of_primary (prim_ident s h))

theorem mul_atom (s : String) (h : isIdentName s = true) :
    multiplicative_expression [Tok.ident s] :=
  mul_of_cast (cast_atom s h)

theorem assign_atomic (s : String) (h : isIdentName s = true) :
    assignment_expression [Tok.ident s] :=
  assign_of_unary (unary_atom s h)

/-- The expression `n <= 1` derives. -/
theorem n_le_one_expr : expression [Tok.ident "n", Tok.lit "<=", Tok.num "1"] := by
  have hn : shift_expression [Tok.ident "n"] := shift_of_primary (prim_ident "n" (by decide))
  have h1 : shift_expression [Tok.num "1"] := shift_of_primary (prim_num "1" (by decide))
  have hr := Der.rel_mk hn (Der.rel_tail_cons (show "<=" ∈ ["<", "<=", ">", ">="] by decide) h1 Der.rel_tail_nil)
  exact expr_of_rel (by simpa using hr)

/-- The parenthesized condition `(n <= 1)` derives. -/
theorem if_cond_paren : parenthesized_expression ifCondToks :=
  Der.paren_mk n_le_one_expr

/-- The jump statement `return n` (no terminator) derives. -/
theorem ret_jump : jump_statement retToks :=
  Der.jump_mk (Der.jump_return_expr (expr_ident "n" (by decide)))

/-- The block body `return n` is a one-item block. -/
theorem ret_items_n : block_items_n retToks 1 :=
  block_items_n.cons_stmt (Der.stmt_jump ret_jump) block_items_n.nil

/-- The indentation block holding a single `return n` derives. -/
theorem ret_block :
    compound_statement (Tok.lit ":" :: Tok.indent :: retToks ++ [Tok.dedent]) :=
  Der.compound_mk (Der.items_stmt (Der.stmt_jump ret_jump) Der.items_nil)

/-- The full `if (n <= 1): return n` input derives as a selection
statement. -/
theorem if_return_sel : selection_statement ifReturnToks := by
  have h := Der.if_mk if_cond_paren ret_block
  simpa [ifReturnToks, ifCondToks, retToks] using h

/-- A number token as a conditional expression. -/
theorem cond_of_num (s : String) (h : isNumberLit s = true) :
    conditional_expression [Tok.num s] :=
  cond_of_lor (lor_of_cast (cast_of_unary (unary_of_pf (pf_of_primary (prim_num s h)))))

/-- A no-argument call `f()` as an expression. -/
theorem call_expr (f : String) (h : isIdentName f = true) :
    expression [Tok.ident f, Tok.lit "(", Tok.lit ")"] := by
  have hpf := Der.pf_mk (prim_ident f h) (Der.pf_call_empty Der.pf_nil)
  exact expr_of_assign (assign_of_unary (unary_of_pf (by simpa using hpf)))

/-- The labeled statement `case 1: foo()` derives. -/
theorem case_one_stmt : labeled_statement caseOneToks :=
  Der.label_case (Der.const_expr_mk (cond_of_num "1" (by decide)))
    (Der.stmt_expr (Der.exprstmt_mk (call_expr "foo" (by decide))))

/-- The labeled statement `case 2: bar()` derives. -/
theorem case_two_stmt : labeled_statement caseTwoToks :=
  Der.label_case (Der.const_expr_mk (cond_of_num "2" (by decide)))
    (Der.stmt_expr (Der.exprstmt_mk (call_expr "bar" (by decide))))

/-- The switch input derives through the brace-delimited production. -/
theorem switch_sel : selection_statement switchToks :=
  Der.switch_mk paren_x (Der.switch_cons case_one_stmt
    (Der.switch_cons case_two_stmt Der.switch_nil))

/-- The switch body consists of exactly two labeled statements. -/
theorem cases_list_two : labeled_list_n (caseOneToks ++ caseTwoToks) 2 :=
  labeled_list_n.cons case_one_stmt (labeled_list_n.cons case_two_stmt labeled_list_n.nil)

/-- The do-while statement with its mandatory `';'` derives. -/
theorem do_semi_iter : iteration_statement doSemiToks :=
  Der.do_mk empty_block paren_x

/-- No iteration_statement derivation matches the do-while input without
the final `';'`: the `do` alternative of grammar.js line 344 ends in a
mandatory `';'` token. -/
theorem do_no_semi_aux (h : iteration_statement ts) (he : ts = doNoSemiToks) : False := by
  cases h with
  | while_mk h1 h2 =>
      have h3 : some (Tok.lit "while") = doNoSemiToks.head? := congrArg List.head? he
      exact absurd h3 (by decide)
  | do_mk h1 h2 =>
      rename_i c p
      have hm : Tok.lit ";" ∈ Tok.lit "do" :: c ++ Tok.lit "while" :: p ++ [Tok.lit ";"] :=
        by simp
      rw [he] at hm
      exact absurd hm (by decide)
  | for_mk h1 h2 h3 h4 =>
      have h5 : some (Tok.lit "for") = doNoSemiToks.head? := congrArg List.head? he
      exact absurd h5 (by decide)

/-- The do-while input without `';'` does not derive. -/
theorem do_no_semi : ¬ iteration_statement doNoSemiToks :=
  fun h => do_no_semi_aux h rfl

/-- No literal token occurs in `MyType x`. -/
theorem mytype_litsonly : litsOnly [] myTypeToks := by
  intro s hs
  simp [myTypeToks] at hs

/-- The two-identifier string `MyType x` is not an expression. -/
theorem not_expr_mytype : ¬ expression myTypeToks := by
  intro h
  have ha := expr_only h mytype_litsonly (by simp)
  obtain ⟨t, heq, _⟩ := assign_atom ha mytype_litsonly (by simp)
  simp [myTypeToks] at heq

/-- The string `MyType x` is not an expression statement. -/
theorem not_exprstmt_mytype_aux (h : expression_statement ts)
    (he : ts = myTypeToks) : False := by
  cases h with
  | exprstmt_mk h1 => exact not_expr_mytype (he ▸ h1)
  | exprstmt_semi h1 =>
      rename_i e
      have hm : Tok.lit ";" ∈ e ++ [Tok.lit ";"] := by simp
      rw [he] at hm
      exact absurd hm (by decide)

theorem not_exprstmt_mytype : ¬ expression_statement myTypeToks :=
  fun h => not_exprstmt_mytype_aux h rfl

/-- The string `MyType x` derives as a declaration: `MyType` as a
typedef_name type specifier and `x` as the declarator, no `';'`. -/
theorem decl_mytype : declaration myTypeToks := by
  have h1 : Der .declaration_specifiers [Tok.ident "MyType"] :=
    Der.decl_specs_single (Der.spec_type (Der.ts_typedefname ⟨"MyType", rfl, by decide⟩))
  have h2 : Der .init_opt [Tok.ident "x"] :=
    Der.init_opt_some (Der.idl_single (Der.init_decl_plain (Der.declarator_id
      ⟨"x", rfl, by decide⟩)))
  have h3 := Der.declaration_mk h1 h2 semi_opt.none
  simpa [myTypeToks] using h3

/-- The string `foo(x)` also derives as a declaration: `foo` as a
typedef_name type specifier and `(x)` as a parenthesized declarator. -/
theorem decl_foocall : declaration fooCallToks := by
  have h1 : Der .declaration_specifiers [Tok.ident "foo"] :=
    Der.decl_specs_single (Der.spec_type (Der.ts_typedefname ⟨"foo", rfl, by decide⟩))
  have hd : Der .declarator (Tok.lit "(" :: [Tok.ident "x"] ++ [Tok.lit ")"]) :=
    Der.declarator_paren (Der.declarator_id ⟨"x", rfl, by decide⟩)
  have h2 : Der .init_opt [Tok.lit "(", Tok.ident "x", Tok.lit ")"] :=
    Der.init_opt_some (Der.idl_single (Der.init_decl_plain (by simpa using hd)))
  have h3 := Der.declaration_mk h1 h2 semi_opt.none
  simpa [fooCallToks] using h3

/-- The string `foo(x)` derives as an expression statement: a call with one
argument and no terminator. -/
theorem exprstmt_foocall : expression_statement fooCallToks := by
  have hargs : Der .argument_expression_list ([Tok.ident "x"] ++ []) :=
    Der.args_mk (assign_atomic "x" (by decide)) Der.arg_tail_nil
  have hpf := Der.pf_mk (prim_ident "foo" (by decide)) (Der.pf_call hargs Der.pf_nil)
  have he : expression fooCallToks :=
    expr_of_assign (assign_of_unary (unary_of_pf (by simpa [fooCallToks] using hpf)))
  exact Der.exprstmt_mk he

/-- The expression `a + b * c` derives with `b * c` as one multiplicative
operand of the additive level. -/
theorem a_plus_b_times_c : additive_expression
    [Tok.ident "a", Tok.lit "+", Tok.ident "b", Tok.lit "*", Tok.ident "c"] := by
  have hbc := Der.mul_mk (cast_atom "b" (by decide))
    (Der.mul_tail_cons (show "*" ∈ ["*", "/", "%"] by decide) (cast_atom "c" (by decide)) Der.mul_tail_nil)
  have h := Der.add_mk (mul_atom "a" (by decide))
    (Der.add_tail_cons (show "+" ∈ ["+", "-"] by decide) (by simpa using hbc) Der.add_tail_nil)
  simpa using h

/-- The multiplicative operand `b * c` derives on its own. -/
theorem b_times_c : multiplicative_expression
    [Tok.ident "b", Tok.lit "*", Tok.ident "c"] := by
  have h := Der.mul_mk (cast_atom "b" (by decide))
    (Der.mul_tail_cons (show "*" ∈ ["*", "/", "%"] by decide) (cast_atom "c" (by decide)) Der.mul_tail_nil)
  simpa using h

/-- An unparenthesized `a + b` is not a multiplicative operand: `'+'`
cannot occur inside a multiplicative_expression of this shape. -/
theorem not_mul_a_plus_b :
    ¬ multiplicative_expression [Tok.ident "a", Tok.lit "+", Tok.ident "b"] := by
  intro h
  rcases mul_mid h rfl with h1 | h1
  · exact absurd h1 (by decide)
  · exact absurd h1 (by decide)

/-- The chained assignment `a = b = c` derives (right recursively). -/
theorem assign_abc : assignment_expression
    [Tok.ident "a", Tok.lit "=", Tok.ident "b", Tok.lit "=", Tok.ident "c"] := by
  have h1 := Der.assign_mk (unary_atom "b" (by decide)) ⟨"=", rfl, by decide⟩
    (assign_atomic "c" (by decide))
  have h2 := Der.assign_mk (unary_atom "a" (by decide)) ⟨"=", rfl, by decide⟩
    (by simpa using h1)
  simpa using h2

/-- An unparenthesized `a = b` is not a unary_expression, so assignment
cannot left-nest. -/
theorem not_unary_a_eq_b :
    ¬ unary_expression [Tok.ident "a", Tok.lit "=", Tok.ident "b"] := by
  intro h
  exact absurd (unary_mid h rfl) (by decide)

/-- The comma expression `a = b, c = d` derives with the two assignments as
separate operands. -/
theorem comma_expr : expression
    [Tok.ident "a", Tok.lit "=", Tok.ident "b", Tok.lit ",",
     Tok.ident "c", Tok.lit "=", Tok.ident "d"] := by
  have hab := Der.assign_mk (unary_atom "a" (by decide)) ⟨"=", rfl, by decide⟩
    (assign_atomic "b" (by decide))
  have hcd := Der.assign_mk (unary_atom "c" (by decide)) ⟨"=", rfl, by decide⟩
    (assign_atomic "d" (by decide))
  have h := Der.expr_mk (show assignment_expression
      [Tok.ident "a", Tok.lit "=", Tok.ident "b"] by simpa using hab)
    (Der.expr_tail_cons (show assignment_expression
      [Tok.ident "c", Tok.lit "=", Tok.ident "d"] by simpa using hcd)
      Der.expr_tail_nil)
  simpa using h

/-- A comma cannot occur inside an assignment_expression of this shape:
the comma operator binds loosest. -/
theorem not_assign_comma :
    ¬ assignment_expression [Tok.ident "a", Tok.lit ",", Tok.ident "b"] := by
  intro h
  have hf : litsOnly [","] [Tok.ident "a", Tok.lit ",", Tok.ident "b"] := by
    intro s hs
    simp at hs
    simp [hs]
  obtain ⟨t, heq, _⟩ := assign_atom h hf (by decide)
  simp at heq

/-- The unary minus binds tighter than `'*'`: `- a * b` derives with
`- a` as one cast operand. -/
theorem neg_a_times_b : multiplicative_expression
    [Tok.lit "-", Tok.ident "a", Tok.lit "*", Tok.ident "b"] := by
  have hneg : cast_expression ([Tok.lit "-"] ++ [Tok.ident "a"]) :=
    Der.cast_unary (Der.unary_op ⟨"-", rfl, by decide⟩ (cast_atom "a" (by decide)))
  have h := Der.mul_mk (show cast_expression [Tok.lit "-", Tok.ident "a"] from hneg)
    (Der.mul_tail_cons (show "*" ∈ ["*", "/", "%"] by decide) (cast_atom "b" (by decide)) Der.mul_tail_nil)
  simpa using h

/-- An unparenthesized `a * b` is not a cast_expression, so a unary
operator cannot cover a product. -/
theorem not_cast_a_times_b :
    ¬ cast_expression [Tok.ident "a", Tok.lit "*", Tok.ident "b"] := by
  intro h
  exact absurd (cast_mid h rfl) (by decide)

/-- The `sizeof` operator binds tighter than `'+'`. -/
theorem sizeof_a_plus_b : additive_expression
    [Tok.lit "sizeof", Tok.ident "a", Tok.lit "+", Tok.ident "b"] := by
  have hs : multiplicative_expression (Tok.lit "sizeof" :: [Tok.ident "a"]) :=
    mul_of_cast (cast_of_unary (Der.unary_sizeof (unary_atom "a" (by decide))))
  have h := Der.add_mk (show multiplicative_expression
      [Tok.lit "sizeof", Tok.ident "a"] from hs)
    (Der.add_tail_cons (show "+" ∈ ["+", "-"] by decide) (mul_atom "b" (by decide)) Der.add_tail_nil)
  simpa using h

/-- A cast binds tighter than `'*'`: `(int) a * b` derives with the cast
as one multiplicative operand. -/
theorem cast_int_a_times_b : multiplicative_expression
    [Tok.lit "(", Tok.lit "int", Tok.lit ")", Tok.ident "a",
     Tok.lit "*", Tok.ident "b"] := by
  have tn : type_name [Tok.lit "int"] :=
    Der.type_name_specs (Der.sql_single_t (Der.ts_basic (by decide)))
  have hc := Der.cast_mk tn (cast_atom "a" (by decide))
  have h := Der.mul_mk (show cast_expression
      [Tok.lit "(", Tok.lit "int", Tok.lit ")", Tok.ident "a"] by simpa using hc)
    (Der.mul_tail_cons (show "*" ∈ ["*", "/", "%"] by decide) (cast_atom "b" (by decide)) Der.mul_tail_nil)
  simpa using h

/-- An `if` with an empty indentation block derives. -/
theorem if_empty_sel :
    selection_statement (Tok.lit "if" :: parenXToks ++ emptyBlockToks) :=
  Der.if_mk paren_x empty_block

/-- The declaration `int;` derives. -/
theorem decl_int_semi : declaration [Tok.lit "int", Tok.lit ";"] := by
  have h := Der.declaration_mk
    (Der.decl_specs_single (Der.spec_type (@Der.ts_basic "int" (by decide))))
    Der.init_opt_none semi_opt.some
  simpa using h

/-!  Claim theorems. -/

/-- C1 (counterexample): the token string of the function definition
`int main ( void ) : BLOCK-START return 0 BLOCK-END` is not derivable as a
function_definition — that rule is referenced by external_declaration but
never defined, so it has no production at all. -/
theorem c1_function_body_counterexample : ¬ function_definition fnDefToks :=
  fun h => nomatch h

/-- C1 (amended): a block body in the indentation form is exactly
`':' BLOCK-START (statement | declaration)* BLOCK-END`, and this form is
the block of `if` (with optional `else`), `while`, `do` and `for`;
`switch` alone among the statement rules uses the classical brace form;
but no function definition is ever parsed, because function_definition is
referenced and never defined. -/
theorem c1_block_forms :
    (∀ ts, compound_statement ts ↔
      ∃ body, Der .block_items body ∧
        ts = Tok.lit ":" :: Tok.indent :: body ++ [Tok.dedent]) ∧
    (∀ p c, parenthesized_expression p → compound_statement c →
      selection_statement (Tok.lit "if" :: p ++ c)) ∧
    (∀ p c, parenthesized_expression p → compound_statement c →
      iteration_statement (Tok.lit "while" :: p ++ c)) ∧
    (∀ c p, compound_statement c → parenthesized_expression p →
      iteration_statement (Tok.lit "do" :: c ++ Tok.lit "while" :: p ++ [Tok.lit ";"])) ∧
    (∀ i cnd st c, Der .for_init_opt i → Der .expr_opt cnd → Der .expr_opt st →
      compound_statement c →
      iteration_statement (Tok.lit "for" :: Tok.lit "(" :: i ++ Tok.lit ";" :: cnd ++
        Tok.lit ";" :: st ++ Tok.lit ")" :: c)) ∧
    (∀ p ls, parenthesized_expression p → Der .switch_items ls →
      selection_statement (Tok.lit "switch" :: p ++ Tok.lit "\x7b" :: ls ++
        [Tok.lit "\x7d"])) ∧
    statementRulesWithBrace = ["selection_statement"] ∧
    (∀ ts, ¬ function_definition ts) := by
  refine ⟨?_, ?_, ?_, ?_, ?_, ?_, by decide, fun ts h => nomatch h⟩
  · intro ts
    constructor
    · intro h
      cases h with | compound_mk hb => exact ⟨_, hb, rfl⟩
    · rintro ⟨body, hb, rfl⟩
      exact Der.compound_mk hb
  · exact fun p c hp hc => Der.if_mk hp hc
  · exact fun p c hp hc => Der.while_mk hp hc
  · exact fun c p hc hp => Der.do_mk hc hp
  · exact fun i cnd st c h1 h2 h3 h4 => Der.for_mk h1 h2 h3 h4
  · exact fun p ls hp hl => Der.switch_mk hp hl

/-- C1 (witness): the block-form theorem applied at concrete inputs: a
`while` statement over `(x)` with an empty block, and the empty block via
the characterization. -/
theorem c1_block_forms_witness :
    iteration_statement (Tok.lit "while" :: parenXToks ++ emptyBlockToks) ∧
    compound_statement emptyBlockToks := by
  obtain ⟨hiff, hif, hwhile, hdo, hfor, hswitch, hbrace, hfn⟩ := c1_block_forms
  exact ⟨hwhile parenXToks emptyBlockToks paren_x empty_block,
    (hiff emptyBlockToks).2 ⟨[], Der.items_nil, rfl⟩⟩

/-- C2 (counterexample): a do-while statement cannot end without the
explicit `';'`: the token string of `do :` BLOCK-START BLOCK-END
`while (x)` does not derive as an iteration_statement, while the same
string with the final `';'` does. -/
theorem c2_do_while_counterexample :
    ¬ iteration_statement doNoSemiToks ∧ iteration_statement doSemiToks :=
  ⟨do_no_semi, do_semi_iter⟩

/-- C2 (amended): expression statements, declarations and jump statements
accept an optional `';'` — both the terminated and the unterminated form
derive — and the grammar consumes no `_newline` token anywhere (no rule
references it), so ending at a STATEMENT-END signal means ending with no
terminator token at all; do-while, however, requires its explicit `';'`. -/
theorem c2_statement_terminators :
    (∀ e, expression e → expression_statement e ∧
      expression_statement (e ++ [Tok.lit ";"])) ∧
    (∀ a b, Der .declaration_specifiers a → Der .init_declarator_list b →
      declaration (a ++ b) ∧ declaration (a ++ b ++ [Tok.lit ";"])) ∧
    (∀ b, Der .jump_body b → jump_statement b ∧ jump_statement (b ++ [Tok.lit ";"])) ∧
    iteration_statement doSemiToks ∧
    ¬ iteration_statement doNoSemiToks ∧
    "_newline" ∉ allReferencedNames := by
  refine ⟨?_, ?_, ?_, do_semi_iter, do_no_semi, by decide⟩
  · exact fun e he => ⟨Der.exprstmt_mk he, Der.exprstmt_semi he⟩
  · intro a b ha hb
    constructor
    · have h := Der.declaration_mk ha (Der.init_opt_some hb) semi_opt.none
      simpa using h
    · exact Der.declaration_mk ha (Der.init_opt_some hb) semi_opt.some
  · exact fun b hb => ⟨Der.jump_mk hb, Der.jump_semi hb⟩

/-- C2 (witness): the terminator theorem applied at concrete inputs: the
expression statement `x;` and the jump statement `break;`. -/
theorem c2_statement_terminators_witness :
    expression_statement [Tok.ident "x", Tok.lit ";"] ∧
    jump_statement [Tok.lit "break", Tok.lit ";"] := by
  obtain ⟨hexpr, hdecl, hjump, -, -, -⟩ := c2_statement_terminators
  constructor
  · have h := (hexpr [Tok.ident "x"] (expr_ident "x" (by decide))).2
    simpa using h
  · have h := (hjump [Tok.lit "break"] Der.jump_break).2
    simpa using h

/-- C3 (counterexample): the token string of `foo(x)` derives as a
declaration as well as an expression statement — typedef_name matches any
identifier, so the grammar does not determine the parse result to be an
expression_statement node. -/
theorem c3_foo_call_counterexample :
    declaration fooCallToks ∧ expression_statement fooCallToks :=
  ⟨decl_foocall, exprstmt_foocall⟩

/-- C3 (amended): `MyType x` derives only as a declaration (it is not an
expression statement); `foo(x)` derives as an expression statement but
also as a declaration, because typedef_name is defined as any identifier
and the grammar has no symbol table; the choice between the two parses is
delegated to the declared conflict [expression_statement, declaration]. -/
theorem c3_disambiguation :
    declaration myTypeToks ∧
    ¬ expression_statement myTypeToks ∧
    expression_statement fooCallToks ∧
    declaration fooCallToks ∧
    ("typedef_name", GRule.ref "identifier") ∈ grammarRules ∧
    ["expression_statement", "declaration"] ∈ grammarConflicts :=
  ⟨decl_mytype, not_exprstmt_mytype, exprstmt_foocall, decl_foocall,
    by decide, by decide⟩

/-- C4: the expression grammar is a single linear precedence ladder
(multiplicative > additive > shift > relational > equality > bitwise-and >
bitwise-xor > bitwise-or > logical-and > logical-or): each level embeds in
the next; each binary level generates exactly the strings of the
left-recursive (left-associative) form `A → A op B | B` over its operand
level; tighter levels group first (`a + b * c`, and `a + b` cannot be a
multiplicative operand); assignment is right-associative (`a = b = c`
derives, `a = b` is not a unary left operand) and binds lowest except for
the comma operator (`a = b, c = d` derives, a comma cannot occur inside an
assignment operand); unary, cast and sizeof bind tightest; and the declared
precedences table lists the same ladder. -/
theorem c4_precedence_ladder :
    (∀ ts, multiplicative_expression ts → additive_expression ts) ∧
    (∀ ts, additive_expression ts → shift_expression ts) ∧
    (∀ ts, shift_expression ts → relational_expression ts) ∧
    (∀ ts, relational_expression ts → equality_expression ts) ∧
    (∀ ts, equality_expression ts → and_expression ts) ∧
    (∀ ts, and_expression ts → exclusive_or_expression ts) ∧
    (∀ ts, exclusive_or_expression ts → inclusive_or_expression ts) ∧
    (∀ ts, inclusive_or_expression ts → logical_and_expression ts) ∧
    (∀ ts, logical_and_expression ts → logical_or_expression ts) ∧
    (∀ ts, multiplicative_expression ts ↔
      lassoc (Der .cast_expression) ["*", "/", "%"] ts) ∧
    (∀ ts, additive_expression ts ↔
      lassoc (Der .multiplicative_expression) ["+", "-"] ts) ∧
    (∀ ts, shift_expression ts ↔
      lassoc (Der .additive_expression) ["<<", ">>"] ts) ∧
    (∀ ts, relational_expression ts ↔
      lassoc (Der .shift_expression) ["<", "<=", ">", ">="] ts) ∧
    (∀ ts, equality_expression ts ↔
      lassoc (Der .relational_expression) ["==", "!="] ts) ∧
    (∀ ts, and_expression ts ↔ lassoc (Der .equality_expression) ["&"] ts) ∧
    (∀ ts, exclusive_or_expression ts ↔ lassoc (Der .and_expression) ["^"] ts) ∧
    (∀ ts, inclusive_or_expression ts ↔
      lassoc (Der .exclusive_or_expression) ["|"] ts) ∧
    (∀ ts, logical_and_expression ts ↔
      lassoc (Der .inclusive_or_expression) ["&&"] ts) ∧
    (∀ ts, logical_or_expression ts ↔
      lassoc (Der .logical_and_expression) ["||"] ts) ∧
    additive_expression
      [Tok.ident "a", Tok.lit "+", Tok.ident "b", Tok.lit "*", Tok.ident "c"] ∧
    multiplicative_expression [Tok.ident "b", Tok.lit "*", Tok.ident "c"] ∧
    (¬ multiplicative_expression [Tok.ident "a", Tok.lit "+", Tok.ident "b"]) ∧
    assignment_expression
      [Tok.ident "a", Tok.lit "=", Tok.ident "b", Tok.lit "=", Tok.ident "c"] ∧
    (¬ unary_expression [Tok.ident "a", Tok.lit "=", Tok.ident "b"]) ∧
    expression [Tok.ident "a", Tok.lit "=", Tok.ident "b", Tok.lit ",",
      Tok.ident "c", Tok.lit "=", Tok.ident "d"] ∧
    (¬ assignment_expression [Tok.ident "a", Tok.lit ",", Tok.ident "b"]) ∧
    multiplicative_expression
      [Tok.lit "-", Tok.ident "a", Tok.lit "*", Tok.ident "b"] ∧
    (¬ cast_expression [Tok.ident "a", Tok.lit "*", Tok.ident "b"]) ∧
    additive_expression
      [Tok.lit "sizeof", Tok.ident "a", Tok.lit "+", Tok.ident "b"] ∧
    multiplicative_expression [Tok.lit "(", Tok.lit "int", Tok.lit ")",
      Tok.ident "a", Tok.lit "*", Tok.ident "b"] ∧
    grammarPrecedences =
      [[.name "multiplication", .name "addition", .name "shift", .name "relational",
        .name "equality", .name "bitwise_and", .name "bitwise_xor", .name "bitwise_or",
        .name "logical_and", .name "logical_or"],
       [.name "assignment"],
       [.name "unary"],
       [.name "call", .sym "unary_expression"],
       [.name "member", .sym "unary_expression"],
       [.name "sizeof", .sym "unary_expression"]] :=
  ⟨fun _ h => add_of_mul h, fun _ h => shift_of_add h, fun _ h => rel_of_shift h,
   fun _ h => eq_of_rel h, fun _ h => and_of_eq h, fun _ h => xor_of_and h,
   fun _ h => ior_of_xor h, fun _ h => land_of_ior h, fun _ h => lor_of_land h,
   mul_lassoc, add_lassoc, shift_lassoc, rel_lassoc, eq_lassoc, and_lassoc,
   xor_lassoc, ior_lassoc, land_lassoc, lor_lassoc,
   a_plus_b_times_c, b_times_c, not_mul_a_plus_b,
   assign_abc, not_unary_a_eq_b, comma_expr, not_assign_comma,
   neg_a_times_b, not_cast_a_times_b, sizeof_a_plus_b, cast_int_a_times_b, rfl⟩

/-- C4 (witness): the ladder theorem applied at a concrete input: a single
identifier lifted from the multiplicative to the additive level, and its
left-associative form. -/
theorem c4_precedence_ladder_witness :
    additive_expression [Tok.ident "z"] ∧
    lassoc (Der .multiplicative_expression) ["+", "-"] [Tok.ident "z"] := by
  obtain ⟨h1, -, -, -, -, -, -, -, -, -, h11, -⟩ := c4_precedence_ladder
  refine ⟨h1 [Tok.ident "z"] (mul_atom "z" (by decide)), ?_⟩
  exact (h11 [Tok.ident "z"]).1 (h1 [Tok.ident "z"] (mul_atom "z" (by decide)))

/-- C5: the token string of `if (n <= 1):` NEWLINE-INDENT `return n`
DEDENT derives as a selection_statement whose block is the indentation
form holding exactly one item, a return statement, and the string contains
no STATEMENT-END (`_newline`) token at all. -/
theorem c5_if_return_parses :
    selection_statement ifReturnToks ∧
    ifReturnToks = Tok.lit "if" :: ifCondToks ++
      (Tok.lit ":" :: Tok.indent :: retToks ++ [Tok.dedent]) ∧
    compound_statement (Tok.lit ":" :: Tok.indent :: retToks ++ [Tok.dedent]) ∧
    block_items_n retToks 1 ∧
    jump_statement retToks ∧
    Tok.newline ∉ ifReturnToks :=
  ⟨if_return_sel, rfl, ret_block, ret_items_n, ret_jump, by decide⟩

/-- C6: the token string of `switch (x) { case 1: foo() case 2: bar() }`
derives through the brace-delimited switch production with exactly two
labeled statements; the string contains no _indent or _dedent token, and
whitespace is an extra, so the indentation of lines inside the braces
cannot affect the nesting of the resulting tree. -/
theorem c6_switch_braces :
    selection_statement switchToks ∧
    switchToks = Tok.lit "switch" :: parenXToks ++
      Tok.lit "\x7b" :: (caseOneToks ++ caseTwoToks) ++ [Tok.lit "\x7d"] ∧
    labeled_list_n (caseOneToks ++ caseTwoToks) 2 ∧
    labeled_statement caseOneToks ∧
    labeled_statement caseTwoToks ∧
    Tok.indent ∉ switchToks ∧
    Tok.dedent ∉ switchToks ∧
    grammarExtras = [GRule.pat "\\s"] :=
  ⟨switch_sel, rfl, cases_list_two, case_one_stmt, case_two_stmt,
    by decide, by decide, rfl⟩

/-- C7: the three external tokens `_indent`, `_dedent`, `_newline` are not
defined by any grammar rule (the external scanner is their sole producer);
the grammar consumes `_indent` and `_dedent` only in compound_statement
and never consumes `_newline`; and every whitespace character is an extra
(the extras array is the single pattern `\s`), so ordinary rules are
whitespace-insensitive. -/
theorem c7_externals_sole_producer :
    grammarExternals = ["_indent", "_dedent", "_newline"] ∧
    "_indent" ∉ definedNames ∧
    "_dedent" ∉ definedNames ∧
    "_newline" ∉ definedNames ∧
    rulesReferencing "_indent" = ["compound_statement"] ∧
    rulesReferencing "_dedent" = ["compound_statement"] ∧
    rulesReferencing "_newline" = [] ∧
    grammarExtras = [GRule.pat "\\s"] :=
  ⟨rfl, by decide, by decide, by decide, by decide, by decide, by decide, rfl⟩

/-- C8: an empty indentation block is legal: `':' BLOCK-START BLOCK-END`
with zero statements derives as a compound_statement (and as a statement,
and inside an `if`); the grammar does not require at least one statement
per block. -/
theorem c8_empty_block_legal :
    compound_statement emptyBlockToks ∧
    block_items_n [] 0 ∧
    statement emptyBlockToks ∧
    selection_statement (Tok.lit "if" :: parenXToks ++ emptyBlockToks) :=
  ⟨empty_block, block_items_n.nil, Der.stmt_compound empty_block, if_empty_sel⟩

/-- C10: the rules function_definition, union_specifier and
_parenthesized_parameter_list are each referenced by exactly one rule of
grammar.js but never defined, so none of them derives any token string;
in particular every external_declaration is a declaration, a preprocessor
directive or an empty statement — no input is parsed as a function
definition. -/
theorem c10_undefined_rules_underivable :
    (¬ ∃ ts, function_definition ts) ∧
    (¬ ∃ ts, union_specifier ts) ∧
    (¬ ∃ ts, _parenthesized_parameter_list ts) ∧
    "function_definition" ∈ allReferencedNames ∧
    "function_definition" ∉ definedNames ∧
    rulesReferencing "function_definition" = ["external_declaration"] ∧
    "union_specifier" ∈ allReferencedNames ∧
    "union_specifier" ∉ definedNames ∧
    rulesReferencing "union_specifier" = ["type_specifier"] ∧
    "_parenthesized_parameter_list" ∈ allReferencedNames ∧
    "_parenthesized_parameter_list" ∉ definedNames ∧
    rulesReferencing "_parenthesized_parameter_list" = ["_preproc_define_value"] ∧
    (∀ ts, external_declaration ts →
      declaration ts ∨ preproc_directive ts ∨ empty_statement ts) := by
  refine ⟨?_, ?_, ?_,
    by decide, by decide, by decide, by decide, by decide, by decide,
    by decide, by decide, by decide, ?_⟩
  · rintro ⟨ts, h⟩
    cases h
  · rintro ⟨ts, h⟩
    cases h
  · rintro ⟨ts, h⟩
    cases h
  intro ts h
  cases h with
  | fn h2 => cases h2
  | decl h2 => exact .inl h2
  | preproc h2 => exact .inr (.inl h2)
  | empty h2 => exact .inr (.inr h2)

/-- C10 (witness): the external_declaration case analysis applied at the
concrete input `int ;`, which is a declaration. -/
theorem c10_undefined_rules_witness :
    declaration [Tok.lit "int", Tok.lit ";"] ∨
      preproc_directive [Tok.lit "int", Tok.lit ";"] ∨
      empty_statement [Tok.lit "int", Tok.lit ";"] := by
  obtain ⟨-, -, -, -, -, -, -, -, -, -, -, -, hE⟩ := c10_undefined_rules_underivable
  exact hE _ (external_declaration.decl decl_int_semi)

end Cspaced

